import Mathlib

/-!
# gravitational_field: the simulation controller `ParticleSystem`

A shallow embedding of `src/particleSystem.h` and `src/particleSystem.cpp`.

* A C++ pointer member is represented by the memory block it designates
  (`Block`): null, dangling (wild or already released) or a live array.
* A finite `float` value is represented by the rational number it denotes
  (infinities and NaN are not represented); where the source performs a
  rounding `float` operation (`frand`, `reset`) the rounding is an explicit
  function `fl`, for which `binary32` (round to nearest, ties to even) is
  provided.  The constants of the constructor (`1.0f / 128.0f`,
  `particleRadius * 2.0f`, `-1.0f`, `-0.5f`) are exact in binary32 and are
  written as the rationals they denote.
* `uint` is a natural number below `2 ^ 32`, `int` an integer in
  `[-2 ^ 31, 2 ^ 31)`; the conversions and the wrap-around of unsigned
  arithmetic are explicit.
* `assert` failure and invalid execution (access outside a live block,
  release of a dangling pointer, signed overflow) are the two faults of
  `Except Fault`.
* The CUDA / OpenGL side (`particleSystem.cuh`, `particles_kernel.cuh` and the
  kernels) is not part of the sources: the five stage functions are parameters
  (`Gpu`), the copy and resource routines are modelled, and every CUDA or
  OpenGL call that `particleSystem.cpp` makes is recorded in a call log.
* The definitions come first.  The theorems follow: facts about the single
  operations, the invariants of sequences of public operations, and the
  statements C1 to C11 about the controller.
-/

namespace GravitationalField

/-! ## Machine integers -/

/-- Number of values of a 32-bit word. -/
def UINT_RANGE : Nat := 4294967296

/-- Largest `int`. -/
def INT_MAX : Nat := 2147483647

/-- Conversion of an integer to `uint` (reduction modulo `2 ^ 32`). -/
def toUInt (i : Int) : Nat := (i % 4294967296).toNat

/-- Conversion of a `uint` to `int` (two's complement). -/
def toInt (n : Nat) : Int :=
  if n % UINT_RANGE < 2147483648 then ((n % UINT_RANGE : Nat) : Int)
  else ((n % UINT_RANGE : Nat) : Int) - 4294967296

/-- Product of two `uint` values, as computed by the machine. -/
def umul (a b : Nat) : Nat := (a * b) % UINT_RANGE

/-- `ParticleSystem::DIM`. -/
def DIM : Nat := 3

/-- `sizeof(float)` and `sizeof(uint)`. -/
def SIZEOF : Nat := 4

/-! ## Faults and memory blocks -/

/-- The two ways a call can end without returning. -/
inductive Fault where
  /-- An `assert` failed: the process aborts. -/
  | assertion
  /-- Anything else that ends the call: access outside a live array, release of a
  dangling pointer, signed overflow, use of an unregistered resource. -/
  | invalid
  deriving DecidableEq, Repr

/-- What a pointer member designates. -/
inductive Block (α : Type) where
  /-- The null pointer. -/
  | null
  /-- A pointer to no live array: indeterminate, or already released. -/
  | dangling
  /-- A live array with the given elements. -/
  | live (data : List α)
  deriving DecidableEq, Repr

namespace Block

/-- Read access to a whole array. -/
def deref {α : Type} : Block α → Except Fault (List α)
  | live d => .ok d
  | _ => .error .invalid

/-- The statement `b[i] = v`. -/
def store {α : Type} (b : Block α) (i : Nat) (v : α) : Except Fault (Block α) :=
  match b with
  | live d => if i < d.length then .ok (live (d.set i v)) else .error .invalid
  | _ => .error .invalid

/-- The statements `delete [] p`, `cudaFree(p)`: releasing null is a no-op,
releasing a live array leaves the pointer dangling, releasing twice is undefined. -/
def release {α : Type} : Block α → Except Fault (Block α)
  | null => .ok null
  | live _ => .ok dangling
  | dangling => .error .invalid

/-- Number of elements of a live array. -/
def size {α : Type} : Block α → Nat
  | live d => d.length
  | _ => 0

/-- Does the pointer designate a live array? -/
def isLive {α : Type} : Block α → Bool
  | live _ => true
  | _ => false

end Block

/-- `assert(c)`. -/
def assert (c : Bool) : Except Fault Unit :=
  if c then .ok () else .error .assertion

/-- Copy of `count` elements of `src` (from its start) over `dst` at element `offset`. -/
def blit {α : Type} (dst : List α) (offset : Nat) (src : List α) (count : Nat) : List α :=
  dst.take offset ++ src.take count ++ dst.drop (offset + count)

/-- New contents of an array of unchanged length, element `i` being `f i`. -/
def refill {α : Type} (old : List α) (f : Nat → α) : List α :=
  (List.range old.length).map f

/-! ## Simulation parameters -/

/-- Modelled from the spec: the declaration of `SimParams` is in
`particles_kernel.cuh`, which is not among the sources.  Its fields are the
ones `particleSystem.h` and `particleSystem.cpp` read and write (grid
dimensions, cell count, body count, cell size, world origin, particle radius,
boundary damping, gravity, global damping, spring, damping, shear, attraction). -/
structure SimParams where
  gravity : ℚ × ℚ
  globalDamping : ℚ
  particleRadius : ℚ
  gridSize : Nat × Nat
  numCells : Nat
  worldOrigin : ℚ × ℚ
  cellSize : ℚ × ℚ
  numBodies : Nat
  spring : ℚ
  damping : ℚ
  shear : ℚ
  attraction : ℚ
  boundaryDamping : ℚ
  deriving DecidableEq, Repr

/-! ## Calls that leave `particleSystem.cpp` -/

/-- Device arrays of `float`. -/
inductive FBuf where
  /-- The mapped store of the position buffer object (`dPos` of `update`). -/
  | posVbo
  | m_dVel
  | m_dSortedPos
  | m_dSortedVel
  deriving DecidableEq, Repr

/-- Device arrays of `uint`. -/
inductive UBuf where
  | m_dGridParticleHash
  | m_dGridParticleIndex
  | m_dCellStart
  | m_dCellEnd
  deriving DecidableEq, Repr

/-- Host arrays whose address an accessor returns. -/
inductive HostBuf where
  | m_hPos
  | m_hVel
  deriving DecidableEq, Repr

/-- One call to the CUDA / OpenGL side, with its arguments.  A stage call also
records `seen`, the parameter block held by the device constant at that
moment. -/
inductive Call where
  | glGenBuffers
  | glBindBuffer (bound : Bool)
  | glBufferData (size : Nat)
  | glBufferSubData (offset size : Int)
  | glDeleteBuffers
  | registerGLBufferObject
  | unregisterGLBufferObject
  | allocateFloats (buf : FBuf) (size : Nat)
  | allocateUints (buf : UBuf) (size : Nat)
  | freeFloats (buf : FBuf)
  | freeUints (buf : UBuf)
  | sdkCreateTimer
  | mapGLBufferObject
  | unmapGLBufferObject
  | setParameters (hostParams : SimParams)
  | integrateSystem (seen : SimParams) (pos vel : FBuf) (deltaTime : ℚ) (numParticles : Nat)
  | calcHash (seen : SimParams) (gridParticleHash gridParticleIndex : UBuf) (pos : FBuf)
      (numParticles : Nat)
  | sortParticles (seen : SimParams) (dGridParticleHash dGridParticleIndex : UBuf)
      (numParticles : Nat)
  | reorderDataAndFindCellStart (seen : SimParams) (cellStart cellEnd : UBuf)
      (sortedPos sortedVel : FBuf) (gridParticleHash gridParticleIndex : UBuf)
      (oldPos oldVel : FBuf) (numParticles numCells : Nat)
  | collide (seen : SimParams) (newVel sortedPos sortedVel : FBuf)
      (gridParticleIndex cellStart cellEnd : UBuf) (numParticles numCells : Nat)
  | copyArrayFromDevice (mapped : Bool) (size : Int)
  | copyArrayToDevice (offset size : Int)
  deriving DecidableEq, Repr

/-! ## The object and its surroundings -/

/-- The data members of `class ParticleSystem`, in the order of the header. -/
structure ParticleSystem where
  m_bInitialized : Bool
  m_numParticles : Nat
  m_hPos : Block ℚ
  m_hVel : Block ℚ
  m_hParticleHash : Block Nat
  m_hCellStart : Block Nat
  m_hCellEnd : Block Nat
  m_dPos : Block ℚ
  m_dVel : Block ℚ
  m_dSortedPos : Block ℚ
  m_dSortedVel : Block ℚ
  m_dGridParticleHash : Block Nat
  m_dGridParticleIndex : Block Nat
  m_dCellStart : Block Nat
  m_dCellEnd : Block Nat
  m_gridSortBits : Nat
  /-- The data store of the buffer object named by `m_posVbo`. -/
  m_posVbo : Block ℚ
  m_cudaPosVBO : Block ℚ
  /-- Is the handle a registered graphics resource? -/
  m_cuda_posvbo_resource : Bool
  m_params : SimParams
  m_gridSize : Nat × Nat
  m_numGridCells : Nat
  /-- Has the timer been created? -/
  m_timer : Bool
  m_solverIterations : Nat
  deriving DecidableEq, Repr

/-- The object together with what lies outside it: the device constant
`params` that the kernels read, and the log of external calls. -/
structure World where
  sys : ParticleSystem
  params : SimParams
  log : List Call
  deriving DecidableEq, Repr

/-- Modelled from the spec: the stage functions (`particleSystem.cuh` and the
CUDA sources are not among the sources).  Each stage computes, from the
parameter block held by the device constant and from its arguments, new
contents for the arrays the spec says it writes: the Integrator position and
velocity, the Spatial Hasher and the Index Sorter the hash and index arrays,
the Cell Range Extractor the cell ranges and the sorted position and velocity,
the Collision Resolver the velocity.  `uninitF` and `uninitU` give the
contents of device memory that was allocated and not yet written. -/
structure Gpu where
  integrateSystem : SimParams → (pos vel : List ℚ) → (deltaTime : ℚ) → (numParticles : Nat) →
    (Nat → ℚ) × (Nat → ℚ)
  calcHash : SimParams → (gridParticleHash gridParticleIndex : List Nat) → (pos : List ℚ) →
    (numParticles : Nat) → (Nat → Nat) × (Nat → Nat)
  sortParticles : SimParams → (dGridParticleHash dGridParticleIndex : List Nat) →
    (numParticles : Nat) → (Nat → Nat) × (Nat → Nat)
  reorderDataAndFindCellStart : SimParams → (cellStart cellEnd : List Nat) →
    (sortedPos sortedVel : List ℚ) → (gridParticleHash gridParticleIndex : List Nat) →
    (oldPos oldVel : List ℚ) → (numParticles numCells : Nat) →
    ((Nat → Nat) × (Nat → Nat)) × ((Nat → ℚ) × (Nat → ℚ))
  collide : SimParams → (newVel sortedPos sortedVel : List ℚ) →
    (gridParticleIndex cellStart cellEnd : List Nat) → (numParticles numCells : Nat) → (Nat → ℚ)
  uninitF : FBuf → Nat → ℚ
  uninitU : UBuf → Nat → Nat

/-- The member (or mapped store) a `float` device pointer designates. -/
def getF (b : FBuf) (s : ParticleSystem) : Block ℚ :=
  match b with
  | .posVbo => s.m_posVbo
  | .m_dVel => s.m_dVel
  | .m_dSortedPos => s.m_dSortedPos
  | .m_dSortedVel => s.m_dSortedVel

/-- Replacement of the array a `float` device pointer designates. -/
def setF (b : FBuf) (v : Block ℚ) (s : ParticleSystem) : ParticleSystem :=
  match b with
  | .posVbo => { s with m_posVbo := v }
  | .m_dVel => { s with m_dVel := v }
  | .m_dSortedPos => { s with m_dSortedPos := v }
  | .m_dSortedVel => { s with m_dSortedVel := v }

/-- The member a `uint` device pointer designates. -/
def getU (b : UBuf) (s : ParticleSystem) : Block Nat :=
  match b with
  | .m_dGridParticleHash => s.m_dGridParticleHash
  | .m_dGridParticleIndex => s.m_dGridParticleIndex
  | .m_dCellStart => s.m_dCellStart
  | .m_dCellEnd => s.m_dCellEnd

/-- Replacement of the array a `uint` device pointer designates. -/
def setU (b : UBuf) (v : Block Nat) (s : ParticleSystem) : ParticleSystem :=
  match b with
  | .m_dGridParticleHash => { s with m_dGridParticleHash := v }
  | .m_dGridParticleIndex => { s with m_dGridParticleIndex := v }
  | .m_dCellStart => { s with m_dCellStart := v }
  | .m_dCellEnd => { s with m_dCellEnd := v }

/-- Append one call to the log. -/
def World.record (w : World) (c : Call) : World :=
  { w with log := w.log ++ [c] }

/-! ## The CUDA / OpenGL routines called by `particleSystem.cpp` -/

/-- A number of bytes as a number of 4-byte elements, for a valid byte range. -/
def elems (bytes : Int) : Except Fault Nat :=
  if 0 ≤ bytes ∧ bytes % 4 = 0 then .ok (bytes / 4).toNat else .error .invalid

/-- Product of two `int` values; signed overflow is invalid. -/
def imul (a b : Int) : Except Fault Int :=
  if -2147483648 ≤ a * b ∧ a * b ≤ (INT_MAX : Int) then .ok (a * b) else .error .invalid

/-- The statement `p++` on an `int` counter that starts at zero: the old value
is used, the new one must not overflow. -/
def postInc (p : Nat) : Except Fault Nat :=
  if p + 1 ≤ INT_MAX then .ok (p + 1) else .error .invalid

/-- Device memory of `n` elements that was allocated and not yet written. -/
def uninit {α : Type} (f : Nat → α) (n : Nat) : Block α :=
  .live ((List.range n).map f)

/-- Modelled from the spec: `setParameters(hostParams)` copies the parameter
block into the process-wide device constant that the kernels read. -/
def setParameters (hostParams : SimParams) (w : World) : World :=
  { w with params := hostParams, log := w.log ++ [Call.setParameters hostParams] }

/-- Modelled from the spec: `registerGLBufferObject(vbo, &resource)` makes the
handle a registered graphics resource. -/
def registerGLBufferObject (w : World) : World :=
  { w with sys := { w.sys with m_cuda_posvbo_resource := true },
           log := w.log ++ [Call.registerGLBufferObject] }

/-- Modelled from the spec: `unregisterGLBufferObject(resource)` ends the
registration; the handle must be a registered resource. -/
def unregisterGLBufferObject (w : World) : Except Fault World :=
  if w.sys.m_cuda_posvbo_resource then
    .ok { w with sys := { w.sys with m_cuda_posvbo_resource := false },
                 log := w.log ++ [Call.unregisterGLBufferObject] }
  else .error .invalid

/-- Modelled from the spec: `mapGLBufferObject(&resource)` acquires the store
of the buffer object for the device (result `dPos`); the handle must be a
registered resource. -/
def mapGLBufferObject (w : World) : Except Fault World :=
  if w.sys.m_cuda_posvbo_resource then .ok (w.record Call.mapGLBufferObject)
  else .error .invalid

/-- Modelled from the spec: `glDeleteBuffers(1, &m_posVbo)` deletes the buffer
object; a name that designates no buffer object is ignored. -/
def glDeleteBuffers (w : World) : World :=
  { w with sys := { w.sys with m_posVbo := .dangling }, log := w.log ++ [Call.glDeleteBuffers] }

/-- Modelled from the spec: `unmapGLBufferObject(resource)` releases the store. -/
def unmapGLBufferObject (w : World) : World :=
  w.record Call.unmapGLBufferObject

/-- Modelled from the spec: `allocateArray((void **)&p, size)` for a `float`
array: `size` bytes of device memory, not yet written. -/
def allocateFloats (G : Gpu) (b : FBuf) (size : Nat) (w : World) : World :=
  { w with sys := setF b (uninit (G.uninitF b) (size / SIZEOF)) w.sys,
           log := w.log ++ [Call.allocateFloats b size] }

/-- Modelled from the spec: `allocateArray((void **)&p, size)` for a `uint` array. -/
def allocateUints (G : Gpu) (b : UBuf) (size : Nat) (w : World) : World :=
  { w with sys := setU b (uninit (G.uninitU b) (size / SIZEOF)) w.sys,
           log := w.log ++ [Call.allocateUints b size] }

/-- Modelled from the spec: `freeArray(p)` for a `float` array. -/
def freeFloats (b : FBuf) (w : World) : Except Fault World := do
  let r ← (getF b w.sys).release
  pure { w with sys := setF b r w.sys, log := w.log ++ [Call.freeFloats b] }

/-- Modelled from the spec: `freeArray(p)` for a `uint` array. -/
def freeUints (b : UBuf) (w : World) : Except Fault World := do
  let r ← (getU b w.sys).release
  pure { w with sys := setU b r w.sys, log := w.log ++ [Call.freeUints b] }

/-- Modelled from the spec: `copyArrayFromDevice(host, device, &resource, size)`
downloads `size` bytes to the start of the host array, from the mapped store of
the buffer object when the resource handle is non-null (`vbo` given), from the
device array otherwise. -/
def copyArrayFromDevice (host device : Block ℚ) (vbo : Option (Block ℚ)) (size : Int) :
    Except Fault (Block ℚ) := do
  let h ← host.deref
  let d ← (vbo.getD device).deref
  let n ← elems size
  if n ≤ h.length ∧ n ≤ d.length then pure (.live (blit h 0 d n)) else .error .invalid

/-- Modelled from the spec: `copyArrayToDevice(device, host, offset, size)`
uploads `size` bytes from the start of the host array to the device array at
byte `offset`. -/
def copyArrayToDevice (device host : Block ℚ) (offset size : Int) :
    Except Fault (Block ℚ) := do
  let d ← device.deref
  let h ← host.deref
  let o ← elems offset
  let n ← elems size
  if o + n ≤ d.length ∧ n ≤ h.length then pure (.live (blit d o h n)) else .error .invalid

/-- Modelled from the spec: `glBufferSubData(target, offset, size, data)`
replaces `size` bytes at byte `offset` of the bound buffer object's store by
the start of the host array. -/
def glBufferSubData (store : Block ℚ) (offset size : Int) (data : Block ℚ) :
    Except Fault (Block ℚ) :=
  copyArrayToDevice store data offset size

/-! ### The five stages, as called by `update` -/

/-- Modelled from the spec: the call `integrateSystem(pos, vel, deltaTime,
numParticles)` (the Integrator is in the CUDA sources): it needs both arrays
live and replaces their contents. -/
def integrateSystem (G : Gpu) (pos vel : FBuf) (deltaTime : ℚ) (numParticles : Nat)
    (w : World) : Except Fault World := do
  let p ← (getF pos w.sys).deref
  let v ← (getF vel w.sys).deref
  let out := G.integrateSystem w.params p v deltaTime numParticles
  let s := setF pos (.live (refill p out.1)) w.sys
  let s := setF vel (.live (refill v out.2)) s
  pure { w with sys := s,
                log := w.log ++ [Call.integrateSystem w.params pos vel deltaTime numParticles] }

/-- Modelled from the spec: the call `calcHash(gridParticleHash,
gridParticleIndex, pos, numParticles)` (the Spatial Hasher is in the CUDA
sources): it needs the three arrays live and replaces the hash and index. -/
def calcHash (G : Gpu) (gridParticleHash gridParticleIndex : UBuf) (pos : FBuf)
    (numParticles : Nat) (w : World) : Except Fault World := do
  let h ← (getU gridParticleHash w.sys).deref
  let i ← (getU gridParticleIndex w.sys).deref
  let p ← (getF pos w.sys).deref
  let out := G.calcHash w.params h i p numParticles
  let s := setU gridParticleHash (.live (refill h out.1)) w.sys
  let s := setU gridParticleIndex (.live (refill i out.2)) s
  pure { w with sys := s,
                log := w.log ++
                  [Call.calcHash w.params gridParticleHash gridParticleIndex pos numParticles] }

/-- Modelled from the spec: the call `sortParticles(dGridParticleHash,
dGridParticleIndex, numParticles)` (the Index Sorter is in the CUDA sources):
it needs both arrays live and replaces their contents. -/
def sortParticles (G : Gpu) (dGridParticleHash dGridParticleIndex : UBuf)
    (numParticles : Nat) (w : World) : Except Fault World := do
  let h ← (getU dGridParticleHash w.sys).deref
  let i ← (getU dGridParticleIndex w.sys).deref
  let out := G.sortParticles w.params h i numParticles
  let s := setU dGridParticleHash (.live (refill h out.1)) w.sys
  let s := setU dGridParticleIndex (.live (refill i out.2)) s
  pure { w with sys := s,
                log := w.log ++
                  [Call.sortParticles w.params dGridParticleHash dGridParticleIndex numParticles] }

/-- Modelled from the spec: the call `reorderDataAndFindCellStart(cellStart,
cellEnd, sortedPos, sortedVel, gridParticleHash, gridParticleIndex, oldPos,
oldVel, numParticles, numCells)` (the Cell Range Extractor is in the CUDA
sources): it needs the eight arrays live and replaces the cell ranges and the
sorted position and velocity. -/
def reorderDataAndFindCellStart (G : Gpu) (cellStart cellEnd : UBuf)
    (sortedPos sortedVel : FBuf) (gridParticleHash gridParticleIndex : UBuf)
    (oldPos oldVel : FBuf) (numParticles numCells : Nat) (w : World) :
    Except Fault World := do
  let cs ← (getU cellStart w.sys).deref
  let ce ← (getU cellEnd w.sys).deref
  let sp ← (getF sortedPos w.sys).deref
  let sv ← (getF sortedVel w.sys).deref
  let h ← (getU gridParticleHash w.sys).deref
  let i ← (getU gridParticleIndex w.sys).deref
  let op ← (getF oldPos w.sys).deref
  let ov ← (getF oldVel w.sys).deref
  let out := G.reorderDataAndFindCellStart w.params cs ce sp sv h i op ov numParticles numCells
  let s := setU cellStart (.live (refill cs out.1.1)) w.sys
  let s := setU cellEnd (.live (refill ce out.1.2)) s
  let s := setF sortedPos (.live (refill sp out.2.1)) s
  let s := setF sortedVel (.live (refill sv out.2.2)) s
  pure { w with sys := s,
                log := w.log ++
                  [Call.reorderDataAndFindCellStart w.params cellStart cellEnd sortedPos sortedVel
                    gridParticleHash gridParticleIndex oldPos oldVel numParticles numCells] }

/-- Modelled from the spec: the call `collide(newVel, sortedPos, sortedVel,
gridParticleIndex, cellStart, cellEnd, numParticles, numCells)` (the Collision
Resolver is in the CUDA sources): it needs the six arrays live and replaces
the velocity. -/
def collide (G : Gpu) (newVel sortedPos sortedVel : FBuf)
    (gridParticleIndex cellStart cellEnd : UBuf) (numParticles numCells : Nat) (w : World) :
    Except Fault World := do
  let nv ← (getF newVel w.sys).deref
  let sp ← (getF sortedPos w.sys).deref
  let sv ← (getF sortedVel w.sys).deref
  let i ← (getU gridParticleIndex w.sys).deref
  let cs ← (getU cellStart w.sys).deref
  let ce ← (getU cellEnd w.sys).deref
  let out := G.collide w.params nv sp sv i cs ce numParticles numCells
  pure { w with sys := setF newVel (.live (refill nv out)) w.sys,
                log := w.log ++
                  [Call.collide w.params newVel sortedPos sortedVel gridParticleIndex cellStart
                    cellEnd numParticles numCells] }

/-! ## `class ParticleSystem` -/

/-- `ParticleSystem::createVBO(size)`: a new buffer object with a store of
`size` bytes, not yet written. -/
def createVBO (G : Gpu) (size : Nat) (w : World) : Block ℚ × World :=
  (uninit (G.uninitF .posVbo) (size / SIZEOF),
   { w with log := w.log ++ [Call.glGenBuffers, Call.glBindBuffer true, Call.glBufferData size,
                             Call.glBindBuffer false] })

/-- `ParticleSystem::_initialize(int numParticles)`. -/
def _initialize (G : Gpu) (numParticles : Int) (w : World) : Except Fault World := do
  assert (!w.sys.m_bInitialized)
  let s := { w.sys with m_numParticles := toUInt numParticles }
  -- allocate host storage
  let s := { s with m_hPos := .live (List.replicate (umul s.m_numParticles DIM) 0) }
  let s := { s with m_hVel := .live (List.replicate (umul s.m_numParticles DIM) 0) }
  let s := { s with m_hCellStart := .live (List.replicate s.m_numGridCells 0) }
  let s := { s with m_hCellEnd := .live (List.replicate s.m_numGridCells 0) }
  -- allocate GPU data
  let memSize : Nat := (SIZEOF * DIM * s.m_numParticles) % UINT_RANGE
  let (vbo, w) := createVBO G memSize { w with sys := s }
  let w := { w with sys := { w.sys with m_posVbo := vbo } }
  let w := registerGLBufferObject w
  let w := allocateFloats G .m_dVel memSize w
  let w := allocateFloats G .m_dSortedPos memSize w
  let w := allocateFloats G .m_dSortedVel memSize w
  let w := allocateUints G .m_dGridParticleHash (w.sys.m_numParticles * SIZEOF) w
  let w := allocateUints G .m_dGridParticleIndex (w.sys.m_numParticles * SIZEOF) w
  let w := allocateUints G .m_dCellStart (w.sys.m_numGridCells * SIZEOF) w
  let w := allocateUints G .m_dCellEnd (w.sys.m_numGridCells * SIZEOF) w
  let w := { w with sys := { w.sys with m_timer := true }, log := w.log ++ [Call.sdkCreateTimer] }
  let w := setParameters w.sys.m_params w
  pure { w with sys := { w.sys with m_bInitialized := true } }

/-- `ParticleSystem::ParticleSystem(uint numParticles, uint2 gridSize)`.  The
argument `raw` is the state before the call: the indeterminate contents of the
object's storage, the device constant and the call log.  Members that the
constructor does not assign (among them the `spring`, `damping`, `shear`,
`attraction`, `gravity` and `globalDamping` fields of `m_params`, whose
assignments are commented out) keep their indeterminate contents. -/
def newParticleSystem (G : Gpu) (raw : World) (numParticles : Nat) (gridSize : Nat × Nat) :
    Except Fault World :=
  let s : ParticleSystem :=
    { raw.sys with
      m_bInitialized := false
      m_numParticles := numParticles
      m_hPos := .null
      m_hVel := .null
      m_dPos := .null
      m_dVel := .null
      m_gridSize := gridSize
      m_timer := false
      m_solverIterations := 1 }
  let s := { s with m_numGridCells := umul s.m_gridSize.1 s.m_gridSize.2 }
  let s := { s with m_gridSortBits := 18 }
  let s := { s with m_params := { s.m_params with gridSize := s.m_gridSize } }
  let s := { s with m_params := { s.m_params with numCells := s.m_numGridCells } }
  let s := { s with m_params := { s.m_params with numBodies := s.m_numParticles } }
  let s := { s with m_params := { s.m_params with particleRadius := 1 / 128 } }
  let s := { s with m_params := { s.m_params with worldOrigin := (-1, -1) } }
  let cellSize : ℚ := s.m_params.particleRadius * 2
  let s := { s with m_params := { s.m_params with cellSize := (cellSize, cellSize) } }
  let s := { s with m_params := { s.m_params with boundaryDamping := -(1 / 2) } }
  _initialize G (toInt numParticles) { raw with sys := s }

/-- `ParticleSystem::_finalize()`. -/
def _finalize (w : World) : Except Fault World := do
  assert w.sys.m_bInitialized
  let hPos ← w.sys.m_hPos.release
  let hVel ← w.sys.m_hVel.release
  let hCellStart ← w.sys.m_hCellStart.release
  let hCellEnd ← w.sys.m_hCellEnd.release
  let w := { w with sys := { w.sys with m_hPos := hPos, m_hVel := hVel,
                                         m_hCellStart := hCellStart, m_hCellEnd := hCellEnd } }
  let w ← freeFloats .m_dVel w
  let w ← freeFloats .m_dSortedPos w
  let w ← freeFloats .m_dSortedVel w
  let w ← freeUints .m_dGridParticleHash w
  let w ← freeUints .m_dGridParticleIndex w
  let w ← freeUints .m_dCellStart w
  let w ← freeUints .m_dCellEnd w
  let w ← unregisterGLBufferObject w
  pure (glDeleteBuffers w)

/-- `ParticleSystem::~ParticleSystem()`. -/
def deleteParticleSystem (w : World) : Except Fault World := do
  let w ← _finalize w
  pure { w with sys := { w.sys with m_numParticles := 0 } }

/-- `ParticleSystem::update(float deltaTime)`: step the simulation. -/
def update (G : Gpu) (deltaTime : ℚ) (w : World) : Except Fault World := do
  assert w.sys.m_bInitialized
  let w ← mapGLBufferObject w
  let dPos := FBuf.posVbo
  let w := setParameters w.sys.m_params w
  let w ← integrateSystem G dPos .m_dVel deltaTime w.sys.m_numParticles w
  let w ← calcHash G .m_dGridParticleHash .m_dGridParticleIndex dPos w.sys.m_numParticles w
  let w ← sortParticles G .m_dGridParticleHash .m_dGridParticleIndex w.sys.m_numParticles w
  let w ← reorderDataAndFindCellStart G .m_dCellStart .m_dCellEnd .m_dSortedPos .m_dSortedVel
    .m_dGridParticleHash .m_dGridParticleIndex dPos .m_dVel w.sys.m_numParticles
    w.sys.m_numGridCells w
  let w ← collide G .m_dVel .m_dSortedPos .m_dSortedVel .m_dGridParticleIndex .m_dCellStart
    .m_dCellEnd w.sys.m_numParticles w.sys.m_numGridCells w
  pure (unmapGLBufferObject w)

/-- The size argument `m_numParticles*DIM*sizeof(float)` of the download
calls: the product `m_numParticles*DIM` is a `uint`, and the byte count is
converted to the `int size` parameter that `particles.cpp` declares for
`copyArrayFromDevice`. -/
def downloadSize (s : ParticleSystem) : Int :=
  toInt (umul s.m_numParticles DIM * SIZEOF)

/-- `ParticleSystem::getPositionArray()`: the result is the pointer `m_hPos`. -/
def getPositionArray (w : World) : Except Fault (HostBuf × World) := do
  assert w.sys.m_bInitialized
  let hdata := w.sys.m_hPos
  let ddata := w.sys.m_dPos
  let cuda_vbo_resource := w.sys.m_cuda_posvbo_resource
  let h ← copyArrayFromDevice hdata ddata
    (if cuda_vbo_resource then some w.sys.m_posVbo else none) (downloadSize w.sys)
  pure (.m_hPos,
    { w with sys := { w.sys with m_hPos := h },
             log := w.log ++ [Call.copyArrayFromDevice cuda_vbo_resource (downloadSize w.sys)] })

/-- `ParticleSystem::setPositionArray(const float *data, int start, int count)`. -/
def setPositionArray (data : Block ℚ) (start count : Int) (w : World) : Except Fault World := do
  assert w.sys.m_bInitialized
  let w ← unregisterGLBufferObject w
  let w := w.record (Call.glBindBuffer true)
  let startDim ← imul start DIM
  let countDim ← imul count DIM
  let vbo ← glBufferSubData w.sys.m_posVbo (startDim * SIZEOF) (countDim * SIZEOF) data
  let w := { w with sys := { w.sys with m_posVbo := vbo },
                    log := w.log ++ [Call.glBufferSubData (startDim * SIZEOF) (countDim * SIZEOF)] }
  let w := w.record (Call.glBindBuffer false)
  pure (registerGLBufferObject w)

/-- `ParticleSystem::getVelocityArray()`: the result is the pointer `hdata`,
which the source initialises from `m_hPos`. -/
def getVelocityArray (w : World) : Except Fault (HostBuf × World) := do
  assert w.sys.m_bInitialized
  let hdata := w.sys.m_hPos
  let ddata := w.sys.m_dVel
  let h ← copyArrayFromDevice hdata ddata none (downloadSize w.sys)
  pure (.m_hPos,
    { w with sys := { w.sys with m_hPos := h },
             log := w.log ++ [Call.copyArrayFromDevice false (downloadSize w.sys)] })

/-- `ParticleSystem::setVelocityArray(const float *data, int start, int count)`. -/
def setVelocityArray (data : Block ℚ) (start count : Int) (w : World) : Except Fault World := do
  assert w.sys.m_bInitialized
  let startDim ← imul start DIM
  let countDim ← imul count DIM
  let d ← copyArrayToDevice w.sys.m_dVel data (startDim * SIZEOF) (countDim * SIZEOF)
  pure { w with sys := { w.sys with m_dVel := d },
                log := w.log ++ [Call.copyArrayToDevice (startDim * SIZEOF) (countDim * SIZEOF)] }

/-- `frand()`: `rand() / (float) RAND_MAX` for the value `r` returned by
`rand()`; both operands are converted to `float` and the quotient is rounded. -/
def frand (fl : ℚ → ℚ) (RAND_MAX : Nat) (r : Nat) : ℚ :=
  fl (fl (r : ℚ) / fl (RAND_MAX : ℚ))

/-- The loop of `ParticleSystem::reset()`: `n` iterations are left, `i` is the
loop counter, `p` and `v` the two `int` cursors; `rnd k` is the value of the
`k`-th call of `rand()` made by this `reset`. -/
def resetLoop (fl : ℚ → ℚ) (RAND_MAX : Nat) (rnd : Nat → Nat) :
    Nat → Nat → Nat → Nat → Block ℚ → Block ℚ → Except Fault (Block ℚ × Block ℚ)
  | 0, _, _, _, hPos, hVel => pure (hPos, hVel)
  | n + 1, i, p, v, hPos, hVel => do
    let point0 := frand fl RAND_MAX (rnd (2 * i))
    let point1 := frand fl RAND_MAX (rnd (2 * i + 1))
    let hPos ← hPos.store p (fl (2 * fl (point0 - 1 / 2)))
    let p ← postInc p
    let hPos ← hPos.store p (fl (2 * fl (point1 - 1 / 2)))
    let p ← postInc p
    let hPos ← hPos.store p 0
    let p ← postInc p
    let hVel ← hVel.store v 0
    let v ← postInc v
    let hVel ← hVel.store v 0
    let v ← postInc v
    let hVel ← hVel.store v 0
    let v ← postInc v
    resetLoop fl RAND_MAX rnd n (i + 1) p v hPos hVel

/-- `ParticleSystem::reset()`. -/
def reset (fl : ℚ → ℚ) (RAND_MAX : Nat) (rnd : Nat → Nat) (w : World) : Except Fault World := do
  let (hPos, hVel) ← resetLoop fl RAND_MAX rnd w.sys.m_numParticles 0 0 0 w.sys.m_hPos w.sys.m_hVel
  let w := { w with sys := { w.sys with m_hPos := hPos, m_hVel := hVel } }
  let w ← setPositionArray w.sys.m_hPos 0 (toInt w.sys.m_numParticles) w
  setVelocityArray w.sys.m_hVel 0 (toInt w.sys.m_numParticles) w

/-! ### Inline members of the header -/

/-- `getNumParticles()`: the `uint` member returned as `int`. -/
def getNumParticles (w : World) : Int := toInt w.sys.m_numParticles

/-- `getCurrentReadBuffer()`. -/
def getCurrentReadBuffer (w : World) : Block ℚ := w.sys.m_posVbo

/-- `getCudaPosVBO()`. -/
def getCudaPosVBO (w : World) : Block ℚ := w.sys.m_cudaPosVBO

/-- `setIterations(int i)`: the `int` argument is converted to the `uint` member. -/
def setIterations (i : Int) (w : World) : World :=
  { w with sys := { w.sys with m_solverIterations := toUInt i } }

/-- `setDamping(float x)`. -/
def setDamping (x : ℚ) (w : World) : World :=
  { w with sys := { w.sys with m_params := { w.sys.m_params with globalDamping := x } } }

/-- `setGravity(float x)`. -/
def setGravity (x : ℚ) (w : World) : World :=
  { w with sys := { w.sys with m_params := { w.sys.m_params with gravity := (0, x) } } }

/-- `setCollideSpring(float x)`. -/
def setCollideSpring (x : ℚ) (w : World) : World :=
  { w with sys := { w.sys with m_params := { w.sys.m_params with spring := x } } }

/-- `setCollideDamping(float x)`. -/
def setCollideDamping (x : ℚ) (w : World) : World :=
  { w with sys := { w.sys with m_params := { w.sys.m_params with damping := x } } }

/-- `setCollideShear(float x)`. -/
def setCollideShear (x : ℚ) (w : World) : World :=
  { w with sys := { w.sys with m_params := { w.sys.m_params with shear := x } } }

/-- `setCollideAttraction(float x)`. -/
def setCollideAttraction (x : ℚ) (w : World) : World :=
  { w with sys := { w.sys with m_params := { w.sys.m_params with attraction := x } } }

/-- `getParticleRadius()`. -/
def getParticleRadius (w : World) : ℚ := w.sys.m_params.particleRadius

/-- `getGridSize()`. -/
def getGridSize (w : World) : Nat × Nat := w.sys.m_params.gridSize

/-- `getWorldOrigin()`. -/
def getWorldOrigin (w : World) : ℚ × ℚ := w.sys.m_params.worldOrigin

/-- `getCellSize()`. -/
def getCellSize (w : World) : ℚ × ℚ := w.sys.m_params.cellSize

/-! ## Predicates on states and concrete instances -/

/-- A system on which a step can run: the flag is set, the buffer object is
registered and the eight device arrays are live. -/
def Ready (w : World) : Prop :=
  w.sys.m_bInitialized = true ∧ w.sys.m_cuda_posvbo_resource = true ∧
  w.sys.m_posVbo.isLive = true ∧ w.sys.m_dVel.isLive = true ∧
  w.sys.m_dSortedPos.isLive = true ∧ w.sys.m_dSortedVel.isLive = true ∧
  w.sys.m_dGridParticleHash.isLive = true ∧ w.sys.m_dGridParticleIndex.isLive = true ∧
  w.sys.m_dCellStart.isLive = true ∧ w.sys.m_dCellEnd.isLive = true

/-- A device side for concrete runs: the Integrator adds `deltaTime` times the
velocity, the Spatial Hasher puts every particle in cell 0, the other stages
copy their inputs; fresh device memory reads as 7. -/
def demoGpu : Gpu where
  integrateSystem := fun _ pos vel deltaTime _ =>
    (fun i => pos.getD i 0 + deltaTime * vel.getD i 0, fun i => vel.getD i 0)
  calcHash := fun _ _ _ _ _ => (fun _ => 0, fun i => i)
  sortParticles := fun _ h i _ => (fun k => h.getD k 0, fun k => i.getD k 0)
  reorderDataAndFindCellStart := fun _ cs ce _ _ _ _ op ov _ _ =>
    ((fun k => cs.getD k 0, fun k => ce.getD k 0), (fun k => op.getD k 0, fun k => ov.getD k 0))
  collide := fun _ nv _ _ _ _ _ _ _ => fun k => nv.getD k 0
  uninitF := fun _ _ => 7
  uninitU := fun _ _ => 7

/-- Parameter block with every field zero. -/
def zeroParams : SimParams where
  gravity := (0, 0)
  globalDamping := 0
  particleRadius := 0
  gridSize := (0, 0)
  numCells := 0
  worldOrigin := (0, 0)
  cellSize := (0, 0)
  numBodies := 0
  spring := 0
  damping := 0
  shear := 0
  attraction := 0
  boundaryDamping := 0

/-- Storage before construction: no pointer designates a live array, nothing
has been logged. -/
def rawWorld : World where
  sys :=
    { m_bInitialized := false
      m_numParticles := 0
      m_hPos := .dangling
      m_hVel := .dangling
      m_hParticleHash := .dangling
      m_hCellStart := .dangling
      m_hCellEnd := .dangling
      m_dPos := .dangling
      m_dVel := .dangling
      m_dSortedPos := .dangling
      m_dSortedVel := .dangling
      m_dGridParticleHash := .dangling
      m_dGridParticleIndex := .dangling
      m_dCellStart := .dangling
      m_dCellEnd := .dangling
      m_gridSortBits := 0
      m_posVbo := .dangling
      m_cudaPosVBO := .dangling
      m_cuda_posvbo_resource := false
      m_params := zeroParams
      m_gridSize := (0, 0)
      m_numGridCells := 0
      m_timer := false
      m_solverIterations := 0 }
  params := zeroParams
  log := []

/-- The parameter block of a constructed system of one particle on a 2 × 2 grid. -/
def demoParams : SimParams :=
  { zeroParams with
    gridSize := (2, 2)
    numCells := 4
    numBodies := 1
    particleRadius := 1 / 128
    worldOrigin := (-1, -1)
    cellSize := (1 / 64, 1 / 64)
    boundaryDamping := -(1 / 2) }

/-- The state `newParticleSystem demoGpu rawWorld 1 (2, 2)` returns. -/
def demoWorld : World where
  sys :=
    { m_bInitialized := true
      m_numParticles := 1
      m_hPos := .live [0, 0, 0]
      m_hVel := .live [0, 0, 0]
      m_hParticleHash := .dangling
      m_hCellStart := .live [0, 0, 0, 0]
      m_hCellEnd := .live [0, 0, 0, 0]
      m_dPos := .null
      m_dVel := .live [7, 7, 7]
      m_dSortedPos := .live [7, 7, 7]
      m_dSortedVel := .live [7, 7, 7]
      m_dGridParticleHash := .live [7]
      m_dGridParticleIndex := .live [7]
      m_dCellStart := .live [7, 7, 7, 7]
      m_dCellEnd := .live [7, 7, 7, 7]
      m_gridSortBits := 18
      m_posVbo := .live [7, 7, 7]
      m_cudaPosVBO := .dangling
      m_cuda_posvbo_resource := true
      m_params := demoParams
      m_gridSize := (2, 2)
      m_numGridCells := 4
      m_timer := true
      m_solverIterations := 1 }
  params := demoParams
  log :=
    [Call.glGenBuffers, Call.glBindBuffer true, Call.glBufferData 12, Call.glBindBuffer false,
     Call.registerGLBufferObject, Call.allocateFloats .m_dVel 12,
     Call.allocateFloats .m_dSortedPos 12, Call.allocateFloats .m_dSortedVel 12,
     Call.allocateUints .m_dGridParticleHash 4, Call.allocateUints .m_dGridParticleIndex 4,
     Call.allocateUints .m_dCellStart 16, Call.allocateUints .m_dCellEnd 16,
     Call.sdkCreateTimer, Call.setParameters demoParams]

/-! ## Notions used in the statements -/

/-- The x coordinate `reset` stores for particle `k`: `2 * (point[0] - 0.5f)`. -/
def seedX (fl : ℚ → ℚ) (RAND_MAX : Nat) (rnd : Nat → Nat) (k : Nat) : ℚ :=
  fl (2 * fl (frand fl RAND_MAX (rnd (2 * k)) - 1 / 2))

/-- The y coordinate `reset` stores for particle `k`: `2 * (point[1] - 0.5f)`. -/
def seedY (fl : ℚ → ℚ) (RAND_MAX : Nat) (rnd : Nat → Nat) (k : Nat) : ℚ :=
  fl (2 * fl (frand fl RAND_MAX (rnd (2 * k + 1)) - 1 / 2))

/-- A system whose buffer sizes match its particle count: the flag is set, the
buffer object is registered, the two host arrays, the position store and the
device velocity array are live with `3 * m_numParticles` elements each, and
their byte size fits an `int`. -/
def SizesMatch (w : World) : Prop :=
  w.sys.m_bInitialized = true ∧ w.sys.m_cuda_posvbo_resource = true ∧
  12 * w.sys.m_numParticles ≤ INT_MAX ∧
  (w.sys.m_hPos.isLive = true ∧ w.sys.m_hPos.size = 3 * w.sys.m_numParticles) ∧
  (w.sys.m_hVel.isLive = true ∧ w.sys.m_hVel.size = 3 * w.sys.m_numParticles) ∧
  (w.sys.m_posVbo.isLive = true ∧ w.sys.m_posVbo.size = 3 * w.sys.m_numParticles) ∧
  (w.sys.m_dVel.isLive = true ∧ w.sys.m_dVel.size = 3 * w.sys.m_numParticles)

/-! ### Rounding to binary32 -/

/-- Rounding of a rational to the nearest integer, ties to the even one. -/
def roundTiesEven (t : ℚ) : ℤ :=
  if t - ⌊t⌋ < 1 / 2 then ⌊t⌋
  else if 1 / 2 < t - ⌊t⌋ then ⌊t⌋ + 1
  else if ⌊t⌋ % 2 = 0 then ⌊t⌋ else ⌊t⌋ + 1

/-- The spacing of the binary32 values around a non-negative `a`: `2 ^ (e - 23)`
for the exponent `e` of `a`, which is at least -126. -/
def ulp (a : ℚ) : ℚ := (2 : ℚ) ^ (max (Int.log 2 a) (-126) - 23)

/-- Rounding of a non-negative rational to binary32. -/
def binary32Abs (a : ℚ) : ℚ := (roundTiesEven (a / ulp a) : ℚ) * ulp a

/-- Rounding to nearest binary32 value, ties to even (overflow to infinity is
not represented). -/
def binary32 (x : ℚ) : ℚ :=
  if 0 ≤ x then binary32Abs x else -binary32Abs (-x)

/-- What the proofs use of the rounding of `float` operations: it is monotone
and leaves `0`, `1 / 2`, `1` and their negatives unchanged.  Rounding to
nearest in binary32 and exact arithmetic both qualify. -/
structure Rounding (fl : ℚ → ℚ) : Prop where
  mono : ∀ x y, x ≤ y → fl x ≤ fl y
  zero : fl 0 = 0
  one : fl 1 = 1
  half : fl (1 / 2) = 1 / 2
  neg_half : fl (-(1 / 2)) = -(1 / 2)
  neg_one : fl (-1) = -1

/-- A call of one of the six parameter setters. -/
inductive Setter where
  | setDamping (x : ℚ)
  | setGravity (x : ℚ)
  | setCollideSpring (x : ℚ)
  | setCollideDamping (x : ℚ)
  | setCollideShear (x : ℚ)
  | setCollideAttraction (x : ℚ)
  deriving DecidableEq, Repr

/-- The effect of one setter call. -/
def Setter.apply : Setter → World → World
  | .setDamping x => GravitationalField.setDamping x
  | .setGravity x => GravitationalField.setGravity x
  | .setCollideSpring x => GravitationalField.setCollideSpring x
  | .setCollideDamping x => GravitationalField.setCollideDamping x
  | .setCollideShear x => GravitationalField.setCollideShear x
  | .setCollideAttraction x => GravitationalField.setCollideAttraction x

/-- A sequence of setter calls, first call first. -/
def applySetters (cs : List Setter) (w : World) : World :=
  cs.foldl (fun w c => c.apply w) w

/-- The external calls of one step that runs with parameter block `p`. -/
def stepCalls (p : SimParams) (deltaTime : ℚ) (numParticles numCells : Nat) : List Call :=
  [Call.mapGLBufferObject,
   Call.setParameters p,
   Call.integrateSystem p .posVbo .m_dVel deltaTime numParticles,
   Call.calcHash p .m_dGridParticleHash .m_dGridParticleIndex .posVbo numParticles,
   Call.sortParticles p .m_dGridParticleHash .m_dGridParticleIndex numParticles,
   Call.reorderDataAndFindCellStart p .m_dCellStart .m_dCellEnd .m_dSortedPos .m_dSortedVel
     .m_dGridParticleHash .m_dGridParticleIndex .posVbo .m_dVel numParticles numCells,
   Call.collide p .m_dVel .m_dSortedPos .m_dSortedVel .m_dGridParticleIndex .m_dCellStart
     .m_dCellEnd numParticles numCells,
   Call.unmapGLBufferObject]

/-- A call of a public operation of a constructed system, with its arguments. -/
inductive Op where
  | update (deltaTime : ℚ)
  | reset (rnd : Nat → Nat)
  | getPositionArray
  | setPositionArray (data : Block ℚ) (start count : Int)
  | getVelocityArray
  | setVelocityArray (data : Block ℚ) (start count : Int)
  | setIterations (i : Int)
  | setDamping (x : ℚ)
  | setGravity (x : ℚ)
  | setCollideSpring (x : ℚ)
  | setCollideDamping (x : ℚ)
  | setCollideShear (x : ℚ)
  | setCollideAttraction (x : ℚ)

/-- The effect of one public operation on the state (a returned pointer is dropped). -/
def step (G : Gpu) (fl : ℚ → ℚ) (RAND_MAX : Nat) (op : Op) (w : World) : Except Fault World :=
  match op with
  | .update deltaTime => update G deltaTime w
  | .reset rnd => reset fl RAND_MAX rnd w
  | .getPositionArray => (getPositionArray w).map Prod.snd
  | .setPositionArray data start count => setPositionArray data start count w
  | .getVelocityArray => (getVelocityArray w).map Prod.snd
  | .setVelocityArray data start count => setVelocityArray data start count w
  | .setIterations i => .ok (setIterations i w)
  | .setDamping x => .ok (setDamping x w)
  | .setGravity x => .ok (setGravity x w)
  | .setCollideSpring x => .ok (setCollideSpring x w)
  | .setCollideDamping x => .ok (setCollideDamping x w)
  | .setCollideShear x => .ok (setCollideShear x w)
  | .setCollideAttraction x => .ok (setCollideAttraction x w)

/-- A sequence of public operations, first call first; it ends at the first fault. -/
def run (G : Gpu) (fl : ℚ → ℚ) (RAND_MAX : Nat) : List Op → World → Except Fault World
  | [], w => .ok w
  | op :: ops, w => do
    let w ← step G fl RAND_MAX op w
    run G fl RAND_MAX ops w

/-- Operations whose arguments are not arrays supplied by the caller. -/
def Op.takesNoArray : Op → Bool
  | .setPositionArray _ _ _ => false
  | .setVelocityArray _ _ _ => false
  | _ => true

/-- The members fixed at construction: the flag, the counts and the grid
geometry, in the object and in its parameter block. -/
structure Geometry where
  initialized : Bool
  numParticles : Nat
  gridSize : Nat × Nat
  numGridCells : Nat
  paramsGridSize : Nat × Nat
  paramsNumCells : Nat
  paramsNumBodies : Nat
  particleRadius : ℚ
  worldOrigin : ℚ × ℚ
  cellSize : ℚ × ℚ
  boundaryDamping : ℚ
  deriving DecidableEq, Repr

/-- The fixed members of an object. -/
def ParticleSystem.geometry (s : ParticleSystem) : Geometry where
  initialized := s.m_bInitialized
  numParticles := s.m_numParticles
  gridSize := s.m_gridSize
  numGridCells := s.m_numGridCells
  paramsGridSize := s.m_params.gridSize
  paramsNumCells := s.m_params.numCells
  paramsNumBodies := s.m_params.numBodies
  particleRadius := s.m_params.particleRadius
  worldOrigin := s.m_params.worldOrigin
  cellSize := s.m_params.cellSize
  boundaryDamping := s.m_params.boundaryDamping

/-- A step can run and the buffer sizes match the particle count. -/
def Good (w : World) : Prop := Ready w ∧ SizesMatch w

/-- An object on which `_initialize` has not run: the members are as the
initialiser list of the constructor leaves them for a particle count of one
(flag clear, host array pointers null), the other pointers are indeterminate. -/
def uninitializedWorld : World :=
  { rawWorld with
    sys := { rawWorld.sys with m_numParticles := 1, m_hPos := .null, m_hVel := .null } }

/-- The state `_finalize` returns on the constructed one-particle system. -/
def demoFinalized : World :=
  { demoWorld with
    sys :=
      { demoWorld.sys with
        m_hPos := .dangling
        m_hVel := .dangling
        m_hCellStart := .dangling
        m_hCellEnd := .dangling
        m_dVel := .dangling
        m_dSortedPos := .dangling
        m_dSortedVel := .dangling
        m_dGridParticleHash := .dangling
        m_dGridParticleIndex := .dangling
        m_dCellStart := .dangling
        m_dCellEnd := .dangling
        m_cuda_posvbo_resource := false
        m_posVbo := .dangling }
    log := demoWorld.log ++
      [Call.freeFloats .m_dVel, Call.freeFloats .m_dSortedPos, Call.freeFloats .m_dSortedVel,
       Call.freeUints .m_dGridParticleHash, Call.freeUints .m_dGridParticleIndex,
       Call.freeUints .m_dCellStart, Call.freeUints .m_dCellEnd,
       Call.unregisterGLBufferObject, Call.glDeleteBuffers] }

/-! ### The region the grid covers -/

/-- The far corner of the grid, `worldOrigin + gridSize * cellSize`, computed
from the values that `getWorldOrigin`, `getGridSize` and `getCellSize` return. -/
def gridExtent (w : World) : ℚ × ℚ :=
  ((getWorldOrigin w).1 + ((getGridSize w).1 : ℚ) * (getCellSize w).1,
   (getWorldOrigin w).2 + ((getGridSize w).2 : ℚ) * (getCellSize w).2)

/-- The point `(x, y)` lies in the region the grid covers: from `worldOrigin`
on, up to `gridExtent` excluded, on both axes. -/
def inGrid (w : World) (x y : ℚ) : Prop :=
  ((getWorldOrigin w).1 ≤ x ∧ x < (gridExtent w).1) ∧
  ((getWorldOrigin w).2 ≤ y ∧ y < (gridExtent w).2)

/-! ### The layout of the arrays -/

/-- Number of elements of the array a pointer designates, if it designates a
live one. -/
def Block.length? {α : Type} : Block α → Option Nat
  | .live d => some d.length
  | _ => none

/-- The layout of an object: whether the buffer object is registered, and for
each array the object owns whether it is live and how many elements it has. -/
structure Layout where
  registered : Bool
  hPos : Option Nat
  hVel : Option Nat
  hCellStart : Option Nat
  hCellEnd : Option Nat
  posVbo : Option Nat
  dVel : Option Nat
  dSortedPos : Option Nat
  dSortedVel : Option Nat
  dGridParticleHash : Option Nat
  dGridParticleIndex : Option Nat
  dCellStart : Option Nat
  dCellEnd : Option Nat
  deriving DecidableEq, Repr

/-- The layout of an object. -/
def ParticleSystem.layout (s : ParticleSystem) : Layout where
  registered := s.m_cuda_posvbo_resource
  hPos := s.m_hPos.length?
  hVel := s.m_hVel.length?
  hCellStart := s.m_hCellStart.length?
  hCellEnd := s.m_hCellEnd.length?
  posVbo := s.m_posVbo.length?
  dVel := s.m_dVel.length?
  dSortedPos := s.m_dSortedPos.length?
  dSortedVel := s.m_dSortedVel.length?
  dGridParticleHash := s.m_dGridParticleHash.length?
  dGridParticleIndex := s.m_dGridParticleIndex.length?
  dCellStart := s.m_dCellStart.length?
  dCellEnd := s.m_dCellEnd.length?

/-- Everything `_finalize` releases is there to be released: a step can run
and the four host arrays are live. -/
def Allocated (w : World) : Prop :=
  Ready w ∧ w.sys.m_hPos.isLive = true ∧ w.sys.m_hVel.isLive = true ∧
  w.sys.m_hCellStart.isLive = true ∧ w.sys.m_hCellEnd.isLive = true

/-- The members of an object after `_finalize`: the eleven arrays and the
buffer object released, the registration ended, every other member (the flag
`m_bInitialized` among them) as before. -/
def finalized (s : ParticleSystem) : ParticleSystem :=
  { s with
    m_hPos := .dangling
    m_hVel := .dangling
    m_hCellStart := .dangling
    m_hCellEnd := .dangling
    m_dVel := .dangling
    m_dSortedPos := .dangling
    m_dSortedVel := .dangling
    m_dGridParticleHash := .dangling
    m_dGridParticleIndex := .dangling
    m_dCellStart := .dangling
    m_dCellEnd := .dangling
    m_cuda_posvbo_resource := false
    m_posVbo := .dangling }

/-- The external calls of `_finalize`. -/
def finalizeCalls : List Call :=
  [Call.freeFloats .m_dVel, Call.freeFloats .m_dSortedPos, Call.freeFloats .m_dSortedVel,
   Call.freeUints .m_dGridParticleHash, Call.freeUints .m_dGridParticleIndex,
   Call.freeUints .m_dCellStart, Call.freeUints .m_dCellEnd,
   Call.unregisterGLBufferObject, Call.glDeleteBuffers]

/-! # Theorems -/

/-! ## Basic facts -/

theorem Block.isLive_iff {α : Type} (b : Block α) : b.isLive = true ↔ ∃ d, b = .live d := by
  cases b <;> simp [Block.isLive]

/-- The demonstration state is the one the constructor builds. -/
theorem newParticleSystem_demo : newParticleSystem demoGpu rawWorld 1 (2, 2) = .ok demoWorld := by
  simp [newParticleSystem, _initialize, assert, createVBO, registerGLBufferObject,
    allocateFloats, allocateUints, setParameters, rawWorld, demoWorld, demoParams, zeroParams,
    demoGpu, toInt, toUInt, umul, DIM, SIZEOF, UINT_RANGE, uninit, setF, setU, bind, Except.bind, pure,
    Except.pure]
  norm_num

theorem ready_demoWorld : Ready demoWorld := by
  simp [Ready, demoWorld, Block.isLive]

/-! ## `update` -/

/-- What one call of `update` does on a system on which a step can run: it
returns, the device constant holds `m_params`, the log grows by the eight
calls of the step, `m_params` is unchanged and the position store holds what
the Integrator wrote. -/
theorem update_spec (G : Gpu) (w : World) (deltaTime : ℚ) (h : Ready w) :
    ∃ w2, update G deltaTime w = .ok w2 ∧
      w2.log = w.log ++
        [Call.mapGLBufferObject,
         Call.setParameters w.sys.m_params,
         Call.integrateSystem w.sys.m_params .posVbo .m_dVel deltaTime w.sys.m_numParticles,
         Call.calcHash w.sys.m_params .m_dGridParticleHash .m_dGridParticleIndex .posVbo
           w.sys.m_numParticles,
         Call.sortParticles w.sys.m_params .m_dGridParticleHash .m_dGridParticleIndex
           w.sys.m_numParticles,
         Call.reorderDataAndFindCellStart w.sys.m_params .m_dCellStart .m_dCellEnd
           .m_dSortedPos .m_dSortedVel .m_dGridParticleHash .m_dGridParticleIndex .posVbo
           .m_dVel w.sys.m_numParticles w.sys.m_numGridCells,
         Call.collide w.sys.m_params .m_dVel .m_dSortedPos .m_dSortedVel .m_dGridParticleIndex
           .m_dCellStart .m_dCellEnd w.sys.m_numParticles w.sys.m_numGridCells,
         Call.unmapGLBufferObject] ∧
      w2.params = w.sys.m_params ∧ w2.sys.m_params = w.sys.m_params ∧
      (∀ pos vel, w.sys.m_posVbo = .live pos → w.sys.m_dVel = .live vel →
        w2.sys.m_posVbo = .live (refill pos
          (G.integrateSystem w.sys.m_params pos vel deltaTime w.sys.m_numParticles).1)) ∧
      Ready w2 ∧ w2.sys.m_numParticles = w.sys.m_numParticles ∧
      w2.sys.m_numGridCells = w.sys.m_numGridCells := by
  obtain ⟨s, p, l⟩ := w
  obtain ⟨h1, h2, h3, h4, h5, h6, h7, h8, h9, h10⟩ := h
  simp only [Block.isLive_iff] at h3 h4 h5 h6 h7 h8 h9 h10
  obtain ⟨d3, h3⟩ := h3
  obtain ⟨d4, h4⟩ := h4
  obtain ⟨d5, h5⟩ := h5
  obtain ⟨d6, h6⟩ := h6
  obtain ⟨d7, h7⟩ := h7
  obtain ⟨d8, h8⟩ := h8
  obtain ⟨d9, h9⟩ := h9
  obtain ⟨d10, h10⟩ := h10
  cases s
  simp only at h1 h2 h3 h4 h5 h6 h7 h8 h9 h10
  subst h1 h2 h3 h4 h5 h6 h7 h8 h9 h10
  simp [update, assert, mapGLBufferObject, setParameters, integrateSystem,
    calcHash, sortParticles, reorderDataAndFindCellStart, collide, unmapGLBufferObject,
    World.record, getF, setF, getU, setU, Block.deref, bind, Except.bind, pure, Except.pure,
    Ready, Block.isLive]

/-! ## C1: the five stages of `update` -/

/-- C1. On every initialized system on which a step can run, for every
`deltaTime` and every value `i` previously passed to `setIterations`, one call
of `update(deltaTime)` returns and makes exactly these external calls, in this
order: map, `setParameters`, then `integrateSystem`, `calcHash`,
`sortParticles`, `reorderDataAndFindCellStart`, `collide` once each, then
unmap.  `calcHash` and `reorderDataAndFindCellStart` receive the position
pointer `dPos` that `integrateSystem` received, and the contents that
`integrateSystem` wrote to it are the contents of the position store when
`update` returns: no later stage replaces them. -/
theorem update_runs_five_stages_in_order (G : Gpu) (w : World) (i : Int) (deltaTime : ℚ)
    (h : Ready w) :
    ∃ w2, update G deltaTime (setIterations i w) = .ok w2 ∧
      w2.log = w.log ++
        [Call.mapGLBufferObject,
         Call.setParameters w.sys.m_params,
         Call.integrateSystem w.sys.m_params .posVbo .m_dVel deltaTime w.sys.m_numParticles,
         Call.calcHash w.sys.m_params .m_dGridParticleHash .m_dGridParticleIndex .posVbo
           w.sys.m_numParticles,
         Call.sortParticles w.sys.m_params .m_dGridParticleHash .m_dGridParticleIndex
           w.sys.m_numParticles,
         Call.reorderDataAndFindCellStart w.sys.m_params .m_dCellStart .m_dCellEnd
           .m_dSortedPos .m_dSortedVel .m_dGridParticleHash .m_dGridParticleIndex .posVbo
           .m_dVel w.sys.m_numParticles w.sys.m_numGridCells,
         Call.collide w.sys.m_params .m_dVel .m_dSortedPos .m_dSortedVel .m_dGridParticleIndex
           .m_dCellStart .m_dCellEnd w.sys.m_numParticles w.sys.m_numGridCells,
         Call.unmapGLBufferObject] ∧
      ∀ pos vel, w.sys.m_posVbo = .live pos → w.sys.m_dVel = .live vel →
        w2.sys.m_posVbo = .live (refill pos
          (G.integrateSystem w.sys.m_params pos vel deltaTime w.sys.m_numParticles).1) := by
  obtain ⟨w2, e, l, -, -, c, -⟩ := update_spec G (setIterations i w) deltaTime h
  exact ⟨w2, e, l, c⟩

/-- Witness for C1 on the constructed one-particle system. -/
theorem update_runs_five_stages_in_order_witness :
    Ready demoWorld ∧
    ∃ w2, update demoGpu 1 (setIterations 5 demoWorld) = .ok w2 ∧
      w2.log = demoWorld.log ++
        [Call.mapGLBufferObject,
         Call.setParameters demoWorld.sys.m_params,
         Call.integrateSystem demoWorld.sys.m_params .posVbo .m_dVel 1
           demoWorld.sys.m_numParticles,
         Call.calcHash demoWorld.sys.m_params .m_dGridParticleHash .m_dGridParticleIndex .posVbo
           demoWorld.sys.m_numParticles,
         Call.sortParticles demoWorld.sys.m_params .m_dGridParticleHash .m_dGridParticleIndex
           demoWorld.sys.m_numParticles,
         Call.reorderDataAndFindCellStart demoWorld.sys.m_params .m_dCellStart .m_dCellEnd
           .m_dSortedPos .m_dSortedVel .m_dGridParticleHash .m_dGridParticleIndex .posVbo
           .m_dVel demoWorld.sys.m_numParticles demoWorld.sys.m_numGridCells,
         Call.collide demoWorld.sys.m_params .m_dVel .m_dSortedPos .m_dSortedVel
           .m_dGridParticleIndex .m_dCellStart .m_dCellEnd demoWorld.sys.m_numParticles
           demoWorld.sys.m_numGridCells,
         Call.unmapGLBufferObject] ∧
      ∀ pos vel, demoWorld.sys.m_posVbo = .live pos → demoWorld.sys.m_dVel = .live vel →
        w2.sys.m_posVbo = .live (refill pos
          (demoGpu.integrateSystem demoWorld.sys.m_params pos vel 1
            demoWorld.sys.m_numParticles).1) :=
  ⟨by simp [Ready, demoWorld, Block.isLive],
   update_runs_five_stages_in_order demoGpu demoWorld 5 1 (by simp [Ready, demoWorld, Block.isLive])⟩

/-! ## `reset` -/

theorem postInc_ok (p : Nat) (h : p + 1 ≤ 2147483647) : postInc p = .ok (p + 1) := by
  simp [postInc, INT_MAX, h]

/-- One iteration of the loop of `reset` on live arrays that are long enough. -/
theorem resetLoop_succ (fl : ℚ → ℚ) (RAND_MAX : Nat) (rnd : Nat → Nat) (n i p : Nat)
    (hp hv : List ℚ) (h1 : p + 3 ≤ hp.length) (h2 : p + 3 ≤ hv.length)
    (h3 : p + 3 ≤ 2147483647) :
    resetLoop fl RAND_MAX rnd (n + 1) i p p (.live hp) (.live hv) =
      resetLoop fl RAND_MAX rnd n (i + 1) (p + 3) (p + 3)
        (.live (((hp.set p (seedX fl RAND_MAX rnd i)).set (p + 1)
          (seedY fl RAND_MAX rnd i)).set (p + 2) 0))
        (.live (((hv.set p 0).set (p + 1) 0).set (p + 2) 0)) := by
  have e1 : postInc p = .ok (p + 1) := postInc_ok _ (by omega)
  have e2 : postInc (p + 1) = .ok (p + 2) := postInc_ok _ (by omega)
  have e3 : postInc (p + 2) = .ok (p + 3) := postInc_ok _ (by omega)
  have l1 : p < hp.length := by omega
  have l2 : p + 1 < hp.length := by omega
  have l3 : p + 2 < hp.length := by omega
  have m1 : p < hv.length := by omega
  have m2 : p + 1 < hv.length := by omega
  have m3 : p + 2 < hv.length := by omega
  simp only [resetLoop, Block.store, List.length_set, l1, l2, l3, m1, m2, m3, e1, e2, e3,
    if_true, bind, Except.bind, seedX, seedY]

/-- Reading a list after three consecutive elements were replaced. -/
theorem getElem?_set3 {α : Type} (l : List α) (p : Nat) (a b c : α) (j : Nat)
    (h : p + 3 ≤ l.length) :
    (((l.set p a).set (p + 1) b).set (p + 2) c)[j]? =
      if j = p then some a else if j = p + 1 then some b else if j = p + 2 then some c
      else l[j]? := by
  simp only [List.getElem?_set, List.length_set]
  by_cases h0 : j = p
  · subst h0
    have : j < l.length := by omega
    simp [this]
  · by_cases h1 : j = p + 1
    · subst h1
      have : p + 1 < l.length := by omega
      simp [this]
    · by_cases h2 : j = p + 2
      · subst h2
        have : p + 2 < l.length := by omega
        simp [this]
      · have e0 : ¬ p = j := fun e => h0 e.symm
        have e1 : ¬ p + 1 = j := fun e => h1 e.symm
        have e2 : ¬ p + 2 = j := fun e => h2 e.symm
        simp [h0, h1, h2, e0, e1, e2]

/-- The loop of `reset` on live arrays of at least `3 * (i + n)` elements
returns; it leaves the elements below `3 * i` alone, stores the seeded
position of each particle `k` with `i ≤ k < i + n` and zeroes the velocity
elements from `3 * i` to `3 * (i + n)`. -/
theorem resetLoop_spec (fl : ℚ → ℚ) (RAND_MAX : Nat) (rnd : Nat → Nat) (n : Nat) :
    ∀ (i : Nat) (hp hv : List ℚ), 3 * (i + n) ≤ hp.length → 3 * (i + n) ≤ hv.length →
      3 * (i + n) ≤ 2147483647 →
      ∃ hp2 hv2, resetLoop fl RAND_MAX rnd n i (3 * i) (3 * i) (.live hp) (.live hv) =
          .ok (.live hp2, .live hv2) ∧
        hp2.length = hp.length ∧ hv2.length = hv.length ∧
        (∀ j, j < 3 * i → hp2[j]? = hp[j]?) ∧
        (∀ j, j < 3 * i → hv2[j]? = hv[j]?) ∧
        (∀ k, i ≤ k → k < i + n →
          hp2[3 * k]? = some (seedX fl RAND_MAX rnd k) ∧
          hp2[3 * k + 1]? = some (seedY fl RAND_MAX rnd k) ∧
          hp2[3 * k + 2]? = some 0) ∧
        (∀ j, 3 * i ≤ j → j < 3 * (i + n) → hv2[j]? = some 0) := by
  induction n with
  | zero =>
    intro i hp hv _ _ _
    refine ⟨hp, hv, by simp [resetLoop, pure, Except.pure], rfl, rfl, fun _ _ => rfl,
      fun _ _ => rfl, ?_, ?_⟩
    · intro k h1 h2; omega
    · intro j h1 h2; omega
  | succ n ih =>
    intro i hp hv h1 h2 h3
    have e : 3 * (i + 1) = 3 * i + 3 := by ring
    obtain ⟨hp2, hv2, r, a1, a2, a3, a4, a5, a6⟩ :=
      ih (i + 1)
        (((hp.set (3 * i) (seedX fl RAND_MAX rnd i)).set (3 * i + 1)
          (seedY fl RAND_MAX rnd i)).set (3 * i + 2) 0)
        (((hv.set (3 * i) 0).set (3 * i + 1) 0).set (3 * i + 2) 0)
        (by simp only [List.length_set]; omega) (by simp only [List.length_set]; omega)
        (by omega)
    rw [e] at r
    have lp : 3 * i + 3 ≤ hp.length := by omega
    have lv : 3 * i + 3 ≤ hv.length := by omega
    simp only [getElem?_set3 _ _ _ _ _ _ lp] at a3
    simp only [getElem?_set3 _ _ _ _ _ _ lv] at a4
    refine ⟨hp2, hv2, ?_, ?_, ?_, ?_, ?_, ?_, ?_⟩
    · rw [resetLoop_succ fl RAND_MAX rnd n i (3 * i) hp hv (by omega) (by omega) (by omega)]
      exact r
    · simpa using a1
    · simpa using a2
    · intro j hj
      rw [a3 j (by omega), if_neg (by omega), if_neg (by omega), if_neg (by omega)]
    · intro j hj
      rw [a4 j (by omega), if_neg (by omega), if_neg (by omega), if_neg (by omega)]
    · intro k hk1 hk2
      rcases Nat.eq_or_lt_of_le hk1 with hk | hk
      · subst hk
        refine ⟨?_, ?_, ?_⟩
        · rw [a3 _ (by omega), if_pos rfl]
        · rw [a3 _ (by omega), if_neg (by omega), if_pos rfl]
        · rw [a3 _ (by omega), if_neg (by omega), if_neg (by omega), if_pos rfl]
      · exact a5 k (by omega) (by omega)
    · intro j hj1 hj2
      by_cases hj : j < 3 * (i + 1)
      · rw [a4 j hj]
        have hc : j = 3 * i ∨ j = 3 * i + 1 ∨ j = 3 * i + 2 := by omega
        rcases hc with hc | hc | hc
        · rw [if_pos hc]
        · rw [if_neg (by omega), if_pos hc]
        · rw [if_neg (by omega), if_neg (by omega), if_pos hc]
      · exact a6 j (by omega) (by omega)

/-! ### Machine arithmetic in range -/

theorem toInt_of_lt (n : Nat) (h : n < 2147483648) : toInt n = (n : Int) := by
  have h2 : n % 4294967296 = n := Nat.mod_eq_of_lt (by omega)
  simp [toInt, UINT_RANGE, h2, h]

theorem umul_of_lt (a b : Nat) (h : a * b < 4294967296) : umul a b = a * b := by
  simp [umul, UINT_RANGE, Nat.mod_eq_of_lt h]

theorem imul_ok (a b : Int) (h1 : -2147483648 ≤ a * b) (h2 : a * b ≤ 2147483647) :
    imul a b = .ok (a * b) := by
  simp [imul, INT_MAX, h1, h2]

theorem elems_ok (k : Nat) : elems ((k : Int) * 4) = .ok k := by
  have h1 : (0 : Int) ≤ (k : Int) * 4 := by positivity
  have h2 : ((k : Int) * 4) % 4 = 0 := by omega
  have h3 : ((k : Int) * 4 / 4).toNat = k := by
    rw [Int.mul_ediv_cancel _ (by norm_num)]; simp
  simp [elems, h1, h2, h3]

theorem blit_all {α : Type} (dst src : List α) (h : src.length = dst.length) :
    blit dst 0 src src.length = src := by
  simp [blit, h]

theorem copyArrayToDevice_all (d h : List ℚ) (e : h.length = d.length) :
    copyArrayToDevice (.live d) (.live h) ((0 : Int) * 4) ((h.length : Int) * 4) =
      .ok (.live h) := by
  have z : ((0 : Int) * 4) = ((0 : Nat) : Int) * 4 := by simp
  rw [z]
  simp only [copyArrayToDevice, Block.deref, elems_ok, bind, Except.bind, pure, Except.pure]
  simp [e, blit]

theorem Block.live_size_iff {α : Type} (b : Block α) (n : Nat) :
    (b.isLive = true ∧ b.size = n) ↔ ∃ d, b = .live d ∧ d.length = n := by
  cases b <;> simp [Block.isLive, Block.size]

/-- `setPositionArray(data, 0, m_numParticles)` with arrays of matching size
replaces the whole position store. -/
theorem setPositionArray_full (w : World) (d pv : List ℚ)
    (hI : w.sys.m_bInitialized = true) (hR : w.sys.m_cuda_posvbo_resource = true)
    (hN : 12 * w.sys.m_numParticles ≤ 2147483647)
    (hv : w.sys.m_posVbo = .live pv) (hd : d.length = 3 * w.sys.m_numParticles)
    (hpv : pv.length = 3 * w.sys.m_numParticles) :
    setPositionArray (.live d) 0 (toInt w.sys.m_numParticles) w =
      .ok { w with
            sys := { w.sys with m_posVbo := .live d, m_cuda_posvbo_resource := true }
            log := w.log ++
              [Call.unregisterGLBufferObject, Call.glBindBuffer true,
               Call.glBufferSubData 0 (12 * (w.sys.m_numParticles : Int)),
               Call.glBindBuffer false, Call.registerGLBufferObject] } := by
  have t : toInt w.sys.m_numParticles = (w.sys.m_numParticles : Int) :=
    toInt_of_lt _ (by omega)
  have i0 : imul 0 (DIM : Int) = .ok 0 := by
    have := imul_ok 0 (DIM : Int) (by simp) (by simp)
    simpa using this
  have i1 : imul (w.sys.m_numParticles : Int) (DIM : Int) = .ok ((d.length : Nat) : Int) := by
    have := imul_ok (w.sys.m_numParticles : Int) (DIM : Int)
      (by simp only [DIM]; push_cast; omega) (by simp only [DIM]; push_cast; omega)
    rw [this, hd]; simp only [DIM]; push_cast; ring_nf
  have c : copyArrayToDevice (.live pv) (.live d) ((0 : Int) * 4) ((d.length : Int) * 4) =
      .ok (.live d) := copyArrayToDevice_all pv d (by omega)
  have s4 : ((SIZEOF : Nat) : Int) = 4 := rfl
  have e12 : ((d.length : Nat) : Int) * 4 = 12 * (w.sys.m_numParticles : Int) := by
    rw [hd]; push_cast; ring
  rw [zero_mul, e12] at c
  obtain ⟨s, p, l⟩ := w
  simp only at hI hR hv t i1 c
  simp only [setPositionArray, assert, hI, unregisterGLBufferObject, hR, World.record, t, i0, i1,
    s4, glBufferSubData, hv, registerGLBufferObject, bind, Except.bind, pure, Except.pure,
    if_true, e12, zero_mul, c]
  simp

/-- `setVelocityArray(data, 0, m_numParticles)` with arrays of matching size
replaces the whole device velocity array. -/
theorem setVelocityArray_full (w : World) (d dv : List ℚ)
    (hI : w.sys.m_bInitialized = true)
    (hN : 12 * w.sys.m_numParticles ≤ 2147483647)
    (hv : w.sys.m_dVel = .live dv) (hd : d.length = 3 * w.sys.m_numParticles)
    (hdv : dv.length = 3 * w.sys.m_numParticles) :
    setVelocityArray (.live d) 0 (toInt w.sys.m_numParticles) w =
      .ok { w with
            sys := { w.sys with m_dVel := .live d }
            log := w.log ++ [Call.copyArrayToDevice 0 (12 * (w.sys.m_numParticles : Int))] } := by
  have t : toInt w.sys.m_numParticles = (w.sys.m_numParticles : Int) :=
    toInt_of_lt _ (by omega)
  have i0 : imul 0 (DIM : Int) = .ok 0 := by
    have := imul_ok 0 (DIM : Int) (by simp) (by simp)
    simpa using this
  have i1 : imul (w.sys.m_numParticles : Int) (DIM : Int) = .ok ((d.length : Nat) : Int) := by
    have := imul_ok (w.sys.m_numParticles : Int) (DIM : Int)
      (by simp only [DIM]; push_cast; omega) (by simp only [DIM]; push_cast; omega)
    rw [this, hd]; simp only [DIM]; push_cast; ring_nf
  have c : copyArrayToDevice (.live dv) (.live d) ((0 : Int) * 4) ((d.length : Int) * 4) =
      .ok (.live d) := copyArrayToDevice_all dv d (by omega)
  have s4 : ((SIZEOF : Nat) : Int) = 4 := rfl
  have e12 : ((d.length : Nat) : Int) * 4 = 12 * (w.sys.m_numParticles : Int) := by
    rw [hd]; push_cast; ring
  rw [zero_mul, e12] at c
  obtain ⟨s, p, l⟩ := w
  simp only at hI hv t i1 c
  simp only [setVelocityArray, assert, hI, t, i0, i1, s4, hv, bind, Except.bind, pure,
    Except.pure, if_true, e12, zero_mul, c]

/-- `reset` on a system whose buffer sizes match returns; the state it returns
is the prior one with both host arrays rewritten, the position store and the
device velocity array replaced by copies of them, and six calls logged. -/
theorem reset_spec (fl : ℚ → ℚ) (RAND_MAX : Nat) (rnd : Nat → Nat) (w : World)
    (h : SizesMatch w) :
    ∃ hp2 hv2,
      reset fl RAND_MAX rnd w =
        .ok { w with
              sys := { w.sys with m_hPos := .live hp2, m_hVel := .live hv2,
                                  m_posVbo := .live hp2, m_dVel := .live hv2,
                                  m_cuda_posvbo_resource := true }
              log := w.log ++
                [Call.unregisterGLBufferObject, Call.glBindBuffer true,
                 Call.glBufferSubData 0 (12 * (w.sys.m_numParticles : Int)),
                 Call.glBindBuffer false, Call.registerGLBufferObject,
                 Call.copyArrayToDevice 0 (12 * (w.sys.m_numParticles : Int))] } ∧
      hp2.length = 3 * w.sys.m_numParticles ∧ hv2.length = 3 * w.sys.m_numParticles ∧
      (∀ k, k < w.sys.m_numParticles →
        hp2[3 * k]? = some (seedX fl RAND_MAX rnd k) ∧
        hp2[3 * k + 1]? = some (seedY fl RAND_MAX rnd k) ∧
        hp2[3 * k + 2]? = some 0) ∧
      (∀ j, j < 3 * w.sys.m_numParticles → hv2[j]? = some 0) := by
  obtain ⟨hI, hR, hN, h1, h2, h3, h4⟩ := h
  simp only [INT_MAX] at hN
  rw [Block.live_size_iff] at h1 h2 h3 h4
  obtain ⟨hp, e1, l1⟩ := h1
  obtain ⟨hv, e2, l2⟩ := h2
  obtain ⟨pv, e3, l3⟩ := h3
  obtain ⟨dv, e4, l4⟩ := h4
  obtain ⟨hp2, hv2, r, a1, a2, -, -, a5, a6⟩ :=
    resetLoop_spec fl RAND_MAX rnd w.sys.m_numParticles 0 hp hv (by omega) (by omega) (by omega)
  simp only [Nat.mul_zero, Nat.zero_add] at r a5 a6
  refine ⟨hp2, hv2, ?_, by omega, by omega, fun k hk => a5 k (Nat.zero_le _) hk,
    fun j hj => a6 j (Nat.zero_le _) hj⟩
  have sp := setPositionArray_full
    { w with sys := { w.sys with m_hPos := .live hp2, m_hVel := .live hv2 } } hp2 pv
    hI hR hN e3 (by simp only; omega) l3
  have sv := setVelocityArray_full
    { w with
      sys := { w.sys with m_hPos := .live hp2, m_hVel := .live hv2, m_posVbo := .live hp2,
                          m_cuda_posvbo_resource := true }
      log := w.log ++
        [Call.unregisterGLBufferObject, Call.glBindBuffer true,
         Call.glBufferSubData 0 (12 * (w.sys.m_numParticles : Int)),
         Call.glBindBuffer false, Call.registerGLBufferObject] } hv2 dv
    hI hN e4 (by simp only; omega) l4
  simp only at sp sv
  simp only [reset, e1, e2, r, sp, sv, bind, Except.bind]
  simp

/-! ### Rounding -/

theorem rounding_id : Rounding (fun x => x) :=
  ⟨fun _ _ h => h, rfl, rfl, rfl, rfl, rfl⟩

theorem roundTiesEven_bounds (t : ℚ) : ⌊t⌋ ≤ roundTiesEven t ∧ roundTiesEven t ≤ ⌊t⌋ + 1 := by
  unfold roundTiesEven
  split_ifs <;> constructor <;> omega

theorem roundTiesEven_intCast (n : ℤ) : roundTiesEven (n : ℚ) = n := by
  unfold roundTiesEven
  simp

theorem roundTiesEven_mono (s t : ℚ) (h : s ≤ t) : roundTiesEven s ≤ roundTiesEven t := by
  have hf : ⌊s⌋ ≤ ⌊t⌋ := Int.floor_le_floor h
  rcases lt_or_eq_of_le hf with hlt | heq
  · have := (roundTiesEven_bounds s).2
    have := (roundTiesEven_bounds t).1
    omega
  · have hs : s - ⌊s⌋ ≤ t - ⌊t⌋ := by rw [heq]; linarith
    unfold roundTiesEven
    rw [heq] at hs ⊢
    split_ifs <;> first | omega | (exfalso; linarith)

theorem ulp_pos (a : ℚ) : 0 < ulp a := by
  unfold ulp
  positivity

theorem binary32Abs_nonneg (a : ℚ) (h : 0 ≤ a) : 0 ≤ binary32Abs a := by
  unfold binary32Abs
  have h1 : 0 ≤ a / ulp a := div_nonneg h (le_of_lt (ulp_pos a))
  have h2 : (0 : ℤ) ≤ ⌊a / ulp a⌋ := Int.floor_nonneg.mpr h1
  have h3 := (roundTiesEven_bounds (a / ulp a)).1
  have h4 : (0 : ℚ) ≤ (roundTiesEven (a / ulp a) : ℚ) := by exact_mod_cast le_trans h2 h3
  exact mul_nonneg h4 (le_of_lt (ulp_pos a))

theorem binary32Abs_zero : binary32Abs 0 = 0 := by
  simp [binary32Abs, roundTiesEven]

/-- A power of two with exponent at least -126 is a binary32 value. -/
theorem binary32Abs_two_zpow (k : ℤ) (hk : -126 ≤ k) :
    binary32Abs ((2 : ℚ) ^ k) = (2 : ℚ) ^ k := by
  have hl : Int.log 2 ((2 : ℚ) ^ k) = k := by
    have := Int.log_zpow (R := ℚ) (b := 2) (by norm_num) k
    simpa using this
  have hu : ulp ((2 : ℚ) ^ k) = (2 : ℚ) ^ (k - 23) := by
    unfold ulp
    rw [hl, max_eq_left hk]
  have hq : (2 : ℚ) ^ k / (2 : ℚ) ^ (k - 23) = ((8388608 : ℤ) : ℚ) := by
    rw [← zpow_sub₀ (by norm_num)]
    have : k - (k - 23) = 23 := by ring
    rw [this]
    norm_num
  unfold binary32Abs
  rw [hu, hq, roundTiesEven_intCast]
  have : ((8388608 : ℤ) : ℚ) = (2 : ℚ) ^ (23 : ℤ) := by norm_num
  rw [this, ← zpow_add₀ (by norm_num)]
  congr 1
  ring

/-- Below a power of two the rounded value does not exceed that power. -/
theorem binary32Abs_le_two_zpow (a : ℚ) :
    binary32Abs a ≤ (2 : ℚ) ^ (max (Int.log 2 a) (-126) + 1) := by
  have hlt : a < (2 : ℚ) ^ (Int.log 2 a + 1) := by
    have := Int.lt_zpow_succ_log_self (R := ℚ) (b := 2) (by norm_num) a
    simpa using this
  have hle : (2 : ℚ) ^ (Int.log 2 a + 1) ≤ (2 : ℚ) ^ (max (Int.log 2 a) (-126) + 1) :=
    zpow_le_zpow_right₀ (by norm_num) (by have := le_max_left (Int.log 2 a) (-126); omega)
  have hq : (2 : ℚ) ^ (max (Int.log 2 a) (-126) + 1) / ulp a = ((16777216 : ℤ) : ℚ) := by
    unfold ulp
    rw [← zpow_sub₀ (by norm_num)]
    have : max (Int.log 2 a) (-126) + 1 - (max (Int.log 2 a) (-126) - 23) = 24 := by ring
    rw [this]
    norm_num
  have h1 : a / ulp a ≤ ((16777216 : ℤ) : ℚ) := by
    rw [← hq]
    exact div_le_div_of_nonneg_right (le_of_lt (lt_of_lt_of_le hlt hle)) (le_of_lt (ulp_pos a))
  have h2 := roundTiesEven_mono _ _ h1
  rw [roundTiesEven_intCast] at h2
  have h3 : (roundTiesEven (a / ulp a) : ℚ) ≤ ((16777216 : ℤ) : ℚ) := by exact_mod_cast h2
  unfold binary32Abs
  calc (roundTiesEven (a / ulp a) : ℚ) * ulp a
      ≤ ((16777216 : ℤ) : ℚ) * ulp a := mul_le_mul_of_nonneg_right h3 (le_of_lt (ulp_pos a))
    _ = (2 : ℚ) ^ (max (Int.log 2 a) (-126) + 1) := by
        rw [← hq, div_mul_cancel₀ _ (ne_of_gt (ulp_pos a))]

/-- From a power of two with exponent above -126 on, the rounded value is at
least that power. -/
theorem two_zpow_le_binary32Abs (b : ℚ) (h : 0 < b) (hb : -126 ≤ Int.log 2 b) :
    (2 : ℚ) ^ (Int.log 2 b) ≤ binary32Abs b := by
  have hle : (2 : ℚ) ^ (Int.log 2 b) ≤ b := by
    have := Int.zpow_log_le_self (R := ℚ) (b := 2) (by norm_num) h
    simpa using this
  have hu : ulp b = (2 : ℚ) ^ (Int.log 2 b - 23) := by
    unfold ulp
    rw [max_eq_left hb]
  have hq : (2 : ℚ) ^ (Int.log 2 b) / ulp b = ((8388608 : ℤ) : ℚ) := by
    rw [hu, ← zpow_sub₀ (by norm_num)]
    have : Int.log 2 b - (Int.log 2 b - 23) = 23 := by ring
    rw [this]
    norm_num
  have h1 : ((8388608 : ℤ) : ℚ) ≤ b / ulp b := by
    rw [← hq]
    exact div_le_div_of_nonneg_right hle (le_of_lt (ulp_pos b))
  have h2 := roundTiesEven_mono _ _ h1
  rw [roundTiesEven_intCast] at h2
  have h3 : ((8388608 : ℤ) : ℚ) ≤ (roundTiesEven (b / ulp b) : ℚ) := by exact_mod_cast h2
  unfold binary32Abs
  calc (2 : ℚ) ^ (Int.log 2 b) = ((8388608 : ℤ) : ℚ) * ulp b := by
        rw [← hq, div_mul_cancel₀ _ (ne_of_gt (ulp_pos b))]
    _ ≤ (roundTiesEven (b / ulp b) : ℚ) * ulp b :=
        mul_le_mul_of_nonneg_right h3 (le_of_lt (ulp_pos b))

theorem binary32Abs_mono (a b : ℚ) (ha : 0 ≤ a) (h : a ≤ b) : binary32Abs a ≤ binary32Abs b := by
  rcases eq_or_lt_of_le ha with h0 | hpos
  · rw [← h0, binary32Abs_zero]
    exact binary32Abs_nonneg b (le_trans ha h)
  · have hbpos : 0 < b := lt_of_lt_of_le hpos h
    have hlog : Int.log 2 a ≤ Int.log 2 b := Int.log_mono_right hpos h
    have hmax : max (Int.log 2 a) (-126) ≤ max (Int.log 2 b) (-126) :=
      max_le_max hlog (le_refl _)
    rcases eq_or_lt_of_le hmax with heq | hlt
    · have hu : ulp a = ulp b := by unfold ulp; rw [heq]
      unfold binary32Abs
      rw [hu]
      have h1 : a / ulp b ≤ b / ulp b :=
        div_le_div_of_nonneg_right h (le_of_lt (ulp_pos b))
      have h2 : (roundTiesEven (a / ulp b) : ℚ) ≤ (roundTiesEven (b / ulp b) : ℚ) := by
        exact_mod_cast roundTiesEven_mono _ _ h1
      exact mul_le_mul_of_nonneg_right h2 (le_of_lt (ulp_pos b))
    · have hb126 : -126 < Int.log 2 b := by
        rcases le_or_lt (Int.log 2 b) (-126) with hc | hc
        · rw [max_eq_right hc] at hlt
          have := le_max_right (Int.log 2 a) (-126)
          omega
        · exact hc
      have hmb : max (Int.log 2 b) (-126) = Int.log 2 b := max_eq_left (le_of_lt hb126)
      rw [hmb] at hlt
      have s1 := binary32Abs_le_two_zpow a
      have s2 := two_zpow_le_binary32Abs b hbpos (le_of_lt hb126)
      have s3 : (2 : ℚ) ^ (max (Int.log 2 a) (-126) + 1) ≤ (2 : ℚ) ^ (Int.log 2 b) :=
        zpow_le_zpow_right₀ (by norm_num) (by omega)
      exact le_trans s1 (le_trans s3 s2)

theorem binary32_mono (x y : ℚ) (h : x ≤ y) : binary32 x ≤ binary32 y := by
  unfold binary32
  by_cases hx : 0 ≤ x
  · have hy : 0 ≤ y := le_trans hx h
    rw [if_pos hx, if_pos hy]
    exact binary32Abs_mono x y hx h
  · rw [if_neg hx]
    push_neg at hx
    by_cases hy : 0 ≤ y
    · rw [if_pos hy]
      have h1 := binary32Abs_nonneg (-x) (by linarith)
      have h2 := binary32Abs_nonneg y hy
      linarith
    · rw [if_neg hy]
      push_neg at hy
      have := binary32Abs_mono (-y) (-x) (by linarith) (by linarith)
      linarith

theorem binary32Abs_one : binary32Abs 1 = 1 := by
  have := binary32Abs_two_zpow 0 (by norm_num)
  simpa using this

theorem binary32Abs_half : binary32Abs (1 / 2) = 1 / 2 := by
  have := binary32Abs_two_zpow (-1) (by norm_num)
  have e : (2 : ℚ) ^ (-1 : ℤ) = 1 / 2 := by norm_num
  rwa [e] at this

/-- Rounding to nearest in binary32 is a rounding in the sense used here. -/
theorem rounding_binary32 : Rounding binary32 where
  mono := binary32_mono
  zero := by simp [binary32, binary32Abs_zero]
  one := by
    have : binary32 1 = binary32Abs 1 := by simp [binary32]
    rw [this, binary32Abs_one]
  half := by
    have : binary32 (1 / 2) = binary32Abs (1 / 2) := by
      unfold binary32
      rw [if_pos (by norm_num)]
    rw [this, binary32Abs_half]
  neg_half := by
    have : binary32 (-(1 / 2)) = -binary32Abs (1 / 2) := by
      unfold binary32
      rw [if_neg (by norm_num)]
      simp
    rw [this, binary32Abs_half]
  neg_one := by
    have : binary32 (-1) = -binary32Abs 1 := by
      unfold binary32
      rw [if_neg (by norm_num)]
      simp
    rw [this, binary32Abs_one]

/-- The conversion `(float) RAND_MAX` for `RAND_MAX = 2 ^ 31 - 1` rounds up to `2 ^ 31`. -/
theorem binary32_RAND_MAX : binary32 2147483647 = 2147483648 := by
  have hl : Int.log 2 (2147483647 : ℚ) = 30 := by
    have h := Int.log_natCast (R := ℚ) 2 2147483647
    have hn : Nat.log 2 2147483647 = 30 := by
      rw [Nat.log_eq_iff (by norm_num)]
      norm_num
    rw [hn] at h
    exact_mod_cast h
  have hu : ulp 2147483647 = 128 := by
    unfold ulp
    rw [hl]
    norm_num
  have hr : roundTiesEven (2147483647 / 128) = 16777216 := by
    have hfl : ⌊(2147483647 / 128 : ℚ)⌋ = 16777215 := by
      rw [Int.floor_eq_iff]
      norm_num
    unfold roundTiesEven
    rw [hfl]
    norm_num
  unfold binary32
  rw [if_pos (by norm_num)]
  unfold binary32Abs
  rw [hu, hr]
  norm_num

/-- `frand()` yields a value of the closed interval from 0 to 1. -/
theorem frand_bounds (fl : ℚ → ℚ) (RAND_MAX r : Nat) (hfl : Rounding fl) (hM : 0 < RAND_MAX)
    (hr : r ≤ RAND_MAX) : 0 ≤ frand fl RAND_MAX r ∧ frand fl RAND_MAX r ≤ 1 := by
  have h0 : 0 ≤ fl (r : ℚ) := by
    have := hfl.mono 0 (r : ℚ) (Nat.cast_nonneg r)
    rwa [hfl.zero] at this
  have h1 : 1 ≤ fl (RAND_MAX : ℚ) := by
    have := hfl.mono 1 (RAND_MAX : ℚ) (by exact_mod_cast hM)
    rwa [hfl.one] at this
  have h2 : fl (r : ℚ) ≤ fl (RAND_MAX : ℚ) := hfl.mono _ _ (by exact_mod_cast hr)
  have hpos : 0 < fl (RAND_MAX : ℚ) := lt_of_lt_of_le one_pos h1
  have q0 : 0 ≤ fl (r : ℚ) / fl (RAND_MAX : ℚ) := div_nonneg h0 (le_of_lt hpos)
  have q1 : fl (r : ℚ) / fl (RAND_MAX : ℚ) ≤ 1 := (div_le_one hpos).mpr h2
  constructor
  · have := hfl.mono _ _ q0
    rwa [hfl.zero] at this
  · have := hfl.mono _ _ q1
    rwa [hfl.one] at this

/-- `2 * (f - 0.5f)` for `f` between 0 and 1 lies between -1 and 1. -/
theorem seed_bounds (fl : ℚ → ℚ) (f : ℚ) (hfl : Rounding fl) (h0 : 0 ≤ f) (h1 : f ≤ 1) :
    -1 ≤ fl (2 * fl (f - 1 / 2)) ∧ fl (2 * fl (f - 1 / 2)) ≤ 1 := by
  have a : -(1 / 2) ≤ fl (f - 1 / 2) := by
    have := hfl.mono (-(1 / 2)) (f - 1 / 2) (by linarith)
    rwa [hfl.neg_half] at this
  have b : fl (f - 1 / 2) ≤ 1 / 2 := by
    have := hfl.mono (f - 1 / 2) (1 / 2) (by linarith)
    rwa [hfl.half] at this
  constructor
  · have := hfl.mono (-1) (2 * fl (f - 1 / 2)) (by linarith)
    rwa [hfl.neg_one] at this
  · have := hfl.mono (2 * fl (f - 1 / 2)) 1 (by linarith)
    rwa [hfl.one] at this

/-- When `rand()` returns `RAND_MAX`, `frand()` is exactly 1. -/
theorem frand_RAND_MAX (fl : ℚ → ℚ) (RAND_MAX : Nat) (hfl : Rounding fl) (hM : 0 < RAND_MAX) :
    frand fl RAND_MAX RAND_MAX = 1 := by
  have h1 : 1 ≤ fl (RAND_MAX : ℚ) := by
    have := hfl.mono 1 (RAND_MAX : ℚ) (by exact_mod_cast hM)
    rwa [hfl.one] at this
  have hne : fl (RAND_MAX : ℚ) ≠ 0 := by linarith
  rw [frand, div_self hne, hfl.one]

/-- When `rand()` returns `RAND_MAX`, the coordinate `reset` stores is exactly 1,
for every rounding. -/
theorem seed_RAND_MAX (fl : ℚ → ℚ) (RAND_MAX : Nat) (hfl : Rounding fl) (hM : 0 < RAND_MAX) :
    fl (2 * fl (frand fl RAND_MAX RAND_MAX - 1 / 2)) = 1 := by
  rw [frand_RAND_MAX fl RAND_MAX hfl hM]
  have e : (1 : ℚ) - 1 / 2 = 1 / 2 := by norm_num
  have e2 : (2 : ℚ) * (1 / 2) = 1 := by norm_num
  rw [e, hfl.half, e2, hfl.one]

theorem sizesMatch_demoWorld : SizesMatch demoWorld := by
  simp [SizesMatch, demoWorld, Block.isLive, Block.size, INT_MAX]

/-! ## C2: positions after `reset` -/

/-- C2, as the code has it.  For every rounding, every `RAND_MAX > 0`, every
sequence of `rand()` values in `0..RAND_MAX` and every system whose buffer
sizes match its particle count, `reset()` returns and every particle's x and y
position component `p` in the host position buffer satisfies `-1 ≤ p ≤ 1`:
`frand()` yields a value of the closed interval `[0, 1]`. -/
theorem reset_positions_in_closed_square (fl : ℚ → ℚ) (RAND_MAX : Nat) (rnd : Nat → Nat)
    (w : World) (hfl : Rounding fl) (hM : 0 < RAND_MAX) (hr : ∀ k, rnd k ≤ RAND_MAX)
    (h : SizesMatch w) :
    ∃ w2 hp2, reset fl RAND_MAX rnd w = .ok w2 ∧ w2.sys.m_hPos = .live hp2 ∧
      ∀ k, k < w.sys.m_numParticles →
        ∃ x y, hp2[3 * k]? = some x ∧ hp2[3 * k + 1]? = some y ∧
          (-1 ≤ x ∧ x ≤ 1) ∧ (-1 ≤ y ∧ y ≤ 1) := by
  obtain ⟨hp2, hv2, r, -, -, a, -⟩ := reset_spec fl RAND_MAX rnd w h
  refine ⟨_, hp2, r, rfl, ?_⟩
  intro k hk
  obtain ⟨ax, ay, -⟩ := a k hk
  obtain ⟨fx0, fx1⟩ := frand_bounds fl RAND_MAX (rnd (2 * k)) hfl hM (hr _)
  obtain ⟨fy0, fy1⟩ := frand_bounds fl RAND_MAX (rnd (2 * k + 1)) hfl hM (hr _)
  exact ⟨_, _, ax, ay, seed_bounds fl _ hfl fx0 fx1, seed_bounds fl _ hfl fy0 fy1⟩

/-- Witness for C2 as the code has it: binary32 rounding, `RAND_MAX = 2147483647`,
`rand()` returning 12345 every time, on the constructed one-particle system. -/
theorem reset_positions_in_closed_square_witness :
    ∃ w2 hp2, reset binary32 2147483647 (fun _ => 12345) demoWorld = .ok w2 ∧
      w2.sys.m_hPos = .live hp2 ∧
      ∀ k, k < demoWorld.sys.m_numParticles →
        ∃ x y, hp2[3 * k]? = some x ∧ hp2[3 * k + 1]? = some y ∧
          (-1 ≤ x ∧ x ≤ 1) ∧ (-1 ≤ y ∧ y ≤ 1) :=
  reset_positions_in_closed_square binary32 2147483647 (fun _ => 12345) demoWorld
    rounding_binary32 (by decide) (fun _ => by show (12345 : Nat) ≤ 2147483647; decide)
    (by simp [SizesMatch, demoWorld, Block.isLive, Block.size, INT_MAX])

/-- C2 as stated fails: with binary32 rounding, `RAND_MAX = 2147483647` and
`rand()` returning `RAND_MAX`, `reset()` on the constructed one-particle
system stores the position `(1, 1, 0)`, and 1 is not below 1. -/
theorem reset_position_reaches_one :
    ∃ w2 p, reset binary32 2147483647 (fun _ => 2147483647) demoWorld = .ok w2 ∧
      w2.sys.m_hPos = .live [p, p, 0] ∧ ¬ p < 1 := by
  obtain ⟨hp2, hv2, r, l1, -, a, -⟩ :=
    reset_spec binary32 2147483647 (fun _ => 2147483647) demoWorld sizesMatch_demoWorld
  obtain ⟨ax, ay, az⟩ := a 0 (by decide)
  have s := seed_RAND_MAX binary32 2147483647 rounding_binary32 (by decide)
  simp only [seedX, seedY, s] at ax ay
  have len : hp2.length = 3 := l1
  have e : hp2 = [1, 1, 0] := by
    match hp2, len with
    | [x, y, z], _ =>
      simp only [Nat.mul_zero, Nat.zero_add, List.getElem?_cons_zero, List.getElem?_cons_succ,
        Option.some.injEq] at ax ay az
      rw [ax, ay, az]
  refine ⟨_, 1, r, ?_, by norm_num⟩
  simp only [e]

/-! ## C4: the configuration setters -/

/-- C4, as the code has it.  Each setter stores its argument unvalidated, for
every argument value, and changes nothing else: the state after the call is
the state before it with the one field replaced.  The `float` setters store
their argument itself; `setIterations(i)` stores `i` converted to `uint`, that
is `i` modulo `2 ^ 32`. -/
theorem setters_store_argument_and_frame (x : ℚ) (i : Int) (w : World) :
    setDamping x w =
      { w with sys := { w.sys with m_params := { w.sys.m_params with globalDamping := x } } } ∧
    setCollideSpring x w =
      { w with sys := { w.sys with m_params := { w.sys.m_params with spring := x } } } ∧
    setCollideDamping x w =
      { w with sys := { w.sys with m_params := { w.sys.m_params with damping := x } } } ∧
    setCollideShear x w =
      { w with sys := { w.sys with m_params := { w.sys.m_params with shear := x } } } ∧
    setCollideAttraction x w =
      { w with sys := { w.sys with m_params := { w.sys.m_params with attraction := x } } } ∧
    setGravity x w =
      { w with sys := { w.sys with m_params := { w.sys.m_params with gravity := (0, x) } } } ∧
    (∃ n : Nat, (n : Int) = i % 4294967296 ∧
      setIterations i w = { w with sys := { w.sys with m_solverIterations := n } }) := by
  refine ⟨rfl, rfl, rfl, rfl, rfl, rfl, toUInt i, ?_, rfl⟩
  exact Int.toNat_of_nonneg (Int.emod_nonneg _ (by norm_num))

/-- C4 as stated fails for a negative iteration count: after
`setIterations(-1)` the solver iteration count is 4294967295, not -1. -/
theorem setIterations_negative_wraps :
    (setIterations (-1) demoWorld).sys.m_solverIterations = 4294967295 ∧
    ((setIterations (-1) demoWorld).sys.m_solverIterations : Int) ≠ -1 := by
  have e : (setIterations (-1) demoWorld).sys.m_solverIterations = 4294967295 := by
    simp [setIterations, toUInt]
  refine ⟨e, ?_⟩
  rw [e]
  norm_num

/-! ## C5: when a setter takes effect -/

/-- A setter call changes `m_params` and nothing else. -/
theorem Setter.apply_frame (c : Setter) (w : World) :
    (c.apply w).params = w.params ∧ (c.apply w).log = w.log ∧
    { (c.apply w).sys with m_params := w.sys.m_params } = w.sys := by
  cases c <;> exact ⟨rfl, rfl, rfl⟩

/-- A sequence of setter calls changes `m_params` and nothing else. -/
theorem applySetters_frame (cs : List Setter) :
    ∀ w : World, (applySetters cs w).params = w.params ∧ (applySetters cs w).log = w.log ∧
      { (applySetters cs w).sys with m_params := w.sys.m_params } = w.sys := by
  induction cs with
  | nil => intro w; exact ⟨rfl, rfl, rfl⟩
  | cons c cs ih =>
    intro w
    obtain ⟨a1, a2, a3⟩ := ih (c.apply w)
    obtain ⟨b1, b2, b3⟩ := c.apply_frame w
    refine ⟨a1.trans b1, a2.trans b2, ?_⟩
    have e : applySetters (c :: cs) w = applySetters cs (c.apply w) := rfl
    rw [e, ← b3, ← a3]

theorem applySetters_ready (cs : List Setter) (w : World) (h : Ready w) :
    Ready (applySetters cs w) := by
  have e := (applySetters_frame cs w).2.2
  generalize applySetters cs w = w2 at e
  obtain ⟨s2, p2, l2⟩ := w2
  obtain ⟨s, p, l⟩ := w
  cases s2
  cases s
  simp only [ParticleSystem.mk.injEq] at e
  simp only [Ready] at h ⊢
  simp_all

/-- C5. A sequence of setter calls changes only the live `m_params`: it leaves
the device constant and the call log as they are (nothing is uploaded).  A
following `update` uploads the live `m_params` with `setParameters` before the
first stage, so all five stages of that step see `m_params` as the setters
left it; the calls of an earlier step stay in the log with the parameter block
that step saw. -/
theorem setters_take_effect_at_next_update (G : Gpu) (w : World) (cs : List Setter)
    (dt1 dt2 : ℚ) (h : Ready w) :
    ∃ w1 w2, update G dt1 w = .ok w1 ∧
      (applySetters cs w1).params = w1.params ∧ (applySetters cs w1).log = w1.log ∧
      { (applySetters cs w1).sys with m_params := w1.sys.m_params } = w1.sys ∧
      update G dt2 (applySetters cs w1) = .ok w2 ∧
      w2.params = (applySetters cs w1).sys.m_params ∧
      w2.log = w.log ++
        stepCalls w.sys.m_params dt1 w.sys.m_numParticles w.sys.m_numGridCells ++
        stepCalls (applySetters cs w1).sys.m_params dt2 w.sys.m_numParticles
          w.sys.m_numGridCells := by
  obtain ⟨w1, e1, l1, -, -, -, r1, n1, c1⟩ := update_spec G w dt1 h
  obtain ⟨f1, f2, f3⟩ := applySetters_frame cs w1
  obtain ⟨w2, e2, l2, p2, -, -, -, -, -⟩ :=
    update_spec G (applySetters cs w1) dt2 (applySetters_ready cs w1 r1)
  have g1 : (applySetters cs w1).sys.m_numParticles = w.sys.m_numParticles := by
    have := congrArg ParticleSystem.m_numParticles f3
    simp only at this
    rw [this, n1]
  have g2 : (applySetters cs w1).sys.m_numGridCells = w.sys.m_numGridCells := by
    have := congrArg ParticleSystem.m_numGridCells f3
    simp only at this
    rw [this, c1]
  refine ⟨w1, w2, e1, f1, f2, f3, e2, p2, ?_⟩
  rw [l2, f2, l1, g1, g2]
  simp [stepCalls]

/-- Witness for C5 on the constructed one-particle system, with a negative
damping and a gravity set between two steps. -/
theorem setters_take_effect_at_next_update_witness :
    ∃ w1 w2, update demoGpu 1 demoWorld = .ok w1 ∧
      (applySetters [.setDamping (-3), .setGravity 5] w1).params = w1.params ∧
      (applySetters [.setDamping (-3), .setGravity 5] w1).log = w1.log ∧
      { (applySetters [.setDamping (-3), .setGravity 5] w1).sys with
        m_params := w1.sys.m_params } = w1.sys ∧
      update demoGpu 2 (applySetters [.setDamping (-3), .setGravity 5] w1) = .ok w2 ∧
      w2.params = (applySetters [.setDamping (-3), .setGravity 5] w1).sys.m_params ∧
      w2.log = demoWorld.log ++
        stepCalls demoWorld.sys.m_params 1 demoWorld.sys.m_numParticles
          demoWorld.sys.m_numGridCells ++
        stepCalls (applySetters [.setDamping (-3), .setGravity 5] w1).sys.m_params 2
          demoWorld.sys.m_numParticles demoWorld.sys.m_numGridCells :=
  setters_take_effect_at_next_update demoGpu demoWorld [.setDamping (-3), .setGravity 5] 1 2
    (by simp [Ready, demoWorld, Block.isLive])

/-! ## The download accessors -/

theorem downloadSize_eq (s : ParticleSystem) (h : 12 * s.m_numParticles ≤ 2147483647) :
    downloadSize s = ((3 * s.m_numParticles : Nat) : Int) * 4 := by
  have u : umul s.m_numParticles DIM = 3 * s.m_numParticles := by
    rw [umul_of_lt _ _ (by simp only [DIM]; omega)]; simp only [DIM]; ring
  have t := toInt_of_lt (3 * s.m_numParticles * 4) (by omega)
  rw [downloadSize, u]
  simp only [SIZEOF]
  rw [t]
  push_cast
  ring

theorem copyArrayFromDevice_all (h d : List ℚ) (vbo : Option (Block ℚ)) (device : Block ℚ)
    (e : h.length = d.length) (hs : vbo.getD device = .live d) :
    copyArrayFromDevice (.live h) device vbo ((d.length : Int) * 4) = .ok (.live d) := by
  simp only [copyArrayFromDevice, Block.deref, hs, elems_ok, bind, Except.bind, pure,
    Except.pure]
  simp [e, blit]

/-- `getVelocityArray()` on a system whose buffer sizes match: the device
velocities are copied over the host position buffer, whose address is
returned. -/
theorem getVelocityArray_spec (w : World) (h : SizesMatch w) :
    ∃ vel, w.sys.m_dVel = .live vel ∧ vel.length = 3 * w.sys.m_numParticles ∧
      getVelocityArray w =
        .ok (HostBuf.m_hPos,
          { w with sys := { w.sys with m_hPos := .live vel }
                   log := w.log ++
                     [Call.copyArrayFromDevice false (12 * (w.sys.m_numParticles : Int))] }) := by
  obtain ⟨hI, hR, hN, h1, h2, h3, h4⟩ := h
  simp only [INT_MAX] at hN
  rw [Block.live_size_iff] at h1 h4
  obtain ⟨hp, e1, l1⟩ := h1
  obtain ⟨dv, e4, l4⟩ := h4
  refine ⟨dv, e4, l4, ?_⟩
  have ds := downloadSize_eq w.sys hN
  have c := copyArrayFromDevice_all hp dv none w.sys.m_dVel (by omega) (by simpa using e4)
  rw [l4, ← ds] at c
  have e12 : downloadSize w.sys = 12 * (w.sys.m_numParticles : Int) := by
    rw [ds]; push_cast; ring
  simp only [getVelocityArray, assert, hI, e1, c, bind, Except.bind, pure, Except.pure, if_true]
  rw [e12]

/-- `getPositionArray()` on a system whose buffer sizes match: the position
store is copied over the host position buffer, whose address is returned. -/
theorem getPositionArray_spec (w : World) (h : SizesMatch w) :
    ∃ pos, w.sys.m_posVbo = .live pos ∧ pos.length = 3 * w.sys.m_numParticles ∧
      getPositionArray w =
        .ok (HostBuf.m_hPos,
          { w with sys := { w.sys with m_hPos := .live pos }
                   log := w.log ++
                     [Call.copyArrayFromDevice true (12 * (w.sys.m_numParticles : Int))] }) := by
  obtain ⟨hI, hR, hN, h1, h2, h3, h4⟩ := h
  simp only [INT_MAX] at hN
  rw [Block.live_size_iff] at h1 h3
  obtain ⟨hp, e1, l1⟩ := h1
  obtain ⟨pv, e3, l3⟩ := h3
  refine ⟨pv, e3, l3, ?_⟩
  have ds := downloadSize_eq w.sys hN
  have c := copyArrayFromDevice_all hp pv (some w.sys.m_posVbo) w.sys.m_dPos (by omega)
    (by simpa using e3)
  rw [l3, ← ds] at c
  have e12 : downloadSize w.sys = 12 * (w.sys.m_numParticles : Int) := by
    rw [ds]; push_cast; ring
  simp only [getPositionArray, assert, hI, hR, e1, c, bind, Except.bind, pure, Except.pure,
    if_true]
  rw [e12]

/-! ## C10: `getVelocityArray` -/

/-- C10. On a system whose buffer sizes match, `getVelocityArray()` returns;
it copies the `3 * N` device velocity components into the host position
buffer `m_hPos`, leaves the host velocity buffer `m_hVel` unchanged, and
returns the pointer `m_hPos`, the same pointer `getPositionArray()` returns. -/
theorem getVelocityArray_overwrites_host_positions (w : World) (h : SizesMatch w) :
    ∃ vel w2 w3, w.sys.m_dVel = .live vel ∧ vel.length = 3 * w.sys.m_numParticles ∧
      getVelocityArray w = .ok (HostBuf.m_hPos, w2) ∧
      w2.sys.m_hPos = .live vel ∧ w2.sys.m_hVel = w.sys.m_hVel ∧
      w2.sys.m_dVel = w.sys.m_dVel ∧
      getPositionArray w = .ok (HostBuf.m_hPos, w3) := by
  obtain ⟨vel, e, l, r⟩ := getVelocityArray_spec w h
  obtain ⟨pos, -, -, r2⟩ := getPositionArray_spec w h
  exact ⟨vel, _, _, e, l, r, rfl, rfl, rfl, r2⟩

/-- Witness for C10 on the constructed one-particle system. -/
theorem getVelocityArray_overwrites_host_positions_witness :
    ∃ vel w2 w3, demoWorld.sys.m_dVel = .live vel ∧
      vel.length = 3 * demoWorld.sys.m_numParticles ∧
      getVelocityArray demoWorld = .ok (HostBuf.m_hPos, w2) ∧
      w2.sys.m_hPos = .live vel ∧ w2.sys.m_hVel = demoWorld.sys.m_hVel ∧
      w2.sys.m_dVel = demoWorld.sys.m_dVel ∧
      getPositionArray demoWorld = .ok (HostBuf.m_hPos, w3) :=
  getVelocityArray_overwrites_host_positions demoWorld
    (by simp [SizesMatch, demoWorld, Block.isLive, Block.size, INT_MAX])

/-! ## Sequences of public operations -/

theorem Except.bind_eq_ok {α β : Type} (x : Except Fault α) (f : α → Except Fault β) (b : β) :
    (x >>= f) = .ok b ↔ ∃ a, x = .ok a ∧ f a = .ok b := by
  cases x <;> simp [bind, Except.bind]

theorem assert_eq_ok (c : Bool) (u : Unit) : assert c = .ok u ↔ c = true := by
  cases c <;> simp [assert]

theorem geometry_setF (b : FBuf) (v : Block ℚ) (s : ParticleSystem) :
    (setF b v s).geometry = s.geometry := by
  cases b <;> rfl

theorem geometry_setU (b : UBuf) (v : Block Nat) (s : ParticleSystem) :
    (setU b v s).geometry = s.geometry := by
  cases b <;> rfl

theorem integrateSystem_geometry (G : Gpu) (a b : FBuf) (dt : ℚ) (n : Nat) (w w2 : World)
    (h : integrateSystem G a b dt n w = .ok w2) : w2.sys.geometry = w.sys.geometry := by
  simp only [integrateSystem, Except.bind_eq_ok] at h
  obtain ⟨_, _, _, _, h⟩ := h
  cases h
  simp only [geometry_setF]

theorem calcHash_geometry (G : Gpu) (a b : UBuf) (c : FBuf) (n : Nat) (w w2 : World)
    (h : calcHash G a b c n w = .ok w2) : w2.sys.geometry = w.sys.geometry := by
  simp only [calcHash, Except.bind_eq_ok] at h
  obtain ⟨_, _, _, _, _, _, h⟩ := h
  cases h
  simp only [geometry_setU]

theorem sortParticles_geometry (G : Gpu) (a b : UBuf) (n : Nat) (w w2 : World)
    (h : sortParticles G a b n w = .ok w2) : w2.sys.geometry = w.sys.geometry := by
  simp only [sortParticles, Except.bind_eq_ok] at h
  obtain ⟨_, _, _, _, h⟩ := h
  cases h
  simp only [geometry_setU]

theorem reorderDataAndFindCellStart_geometry (G : Gpu) (a b : UBuf) (c d : FBuf) (e f : UBuf)
    (g k : FBuf) (n m : Nat) (w w2 : World)
    (h : reorderDataAndFindCellStart G a b c d e f g k n m w = .ok w2) :
    w2.sys.geometry = w.sys.geometry := by
  simp only [reorderDataAndFindCellStart, Except.bind_eq_ok] at h
  obtain ⟨_, _, _, _, _, _, _, _, _, _, _, _, _, _, _, _, h⟩ := h
  cases h
  simp only [geometry_setF, geometry_setU]

theorem collide_geometry (G : Gpu) (a b c : FBuf) (d e f : UBuf) (n m : Nat) (w w2 : World)
    (h : collide G a b c d e f n m w = .ok w2) : w2.sys.geometry = w.sys.geometry := by
  simp only [collide, Except.bind_eq_ok] at h
  obtain ⟨_, _, _, _, _, _, _, _, _, _, _, _, h⟩ := h
  cases h
  simp only [geometry_setF]

theorem update_geometry (G : Gpu) (dt : ℚ) (w w2 : World) (h : update G dt w = .ok w2) :
    w2.sys.geometry = w.sys.geometry := by
  simp only [update, Except.bind_eq_ok] at h
  obtain ⟨_, _, w1, h1, w3, h3, w4, h4, w5, h5, w6, h6, w7, h7, h⟩ := h
  cases h
  have g1 : w1.sys.geometry = w.sys.geometry := by
    simp only [mapGLBufferObject, World.record] at h1
    split at h1
    · cases h1; rfl
    · cases h1
  have g3 := integrateSystem_geometry _ _ _ _ _ _ _ h3
  have g4 := calcHash_geometry _ _ _ _ _ _ _ h4
  have g5 := sortParticles_geometry _ _ _ _ _ _ h5
  have g6 := reorderDataAndFindCellStart_geometry _ _ _ _ _ _ _ _ _ _ _ _ _ h6
  have g7 := collide_geometry _ _ _ _ _ _ _ _ _ _ _ h7
  simp only [setParameters] at g3
  simp only [unmapGLBufferObject, World.record]
  rw [g7, g6, g5, g4, g3, g1]

theorem setPositionArray_geometry (data : Block ℚ) (start count : Int) (w w2 : World)
    (h : setPositionArray data start count w = .ok w2) : w2.sys.geometry = w.sys.geometry := by
  simp only [setPositionArray, Except.bind_eq_ok] at h
  obtain ⟨_, _, w1, h1, _, _, _, _, _, _, h⟩ := h
  cases h
  simp only [unregisterGLBufferObject] at h1
  split at h1
  · cases h1; rfl
  · cases h1

theorem setVelocityArray_geometry (data : Block ℚ) (start count : Int) (w w2 : World)
    (h : setVelocityArray data start count w = .ok w2) : w2.sys.geometry = w.sys.geometry := by
  simp only [setVelocityArray, Except.bind_eq_ok] at h
  obtain ⟨_, _, _, _, _, _, _, _, h⟩ := h
  cases h
  rfl

theorem getPositionArray_geometry (w w2 : World) (p : HostBuf)
    (h : getPositionArray w = .ok (p, w2)) : w2.sys.geometry = w.sys.geometry := by
  simp only [getPositionArray, Except.bind_eq_ok] at h
  obtain ⟨_, _, _, _, h⟩ := h
  cases h
  rfl

theorem getVelocityArray_geometry (w w2 : World) (p : HostBuf)
    (h : getVelocityArray w = .ok (p, w2)) : w2.sys.geometry = w.sys.geometry := by
  simp only [getVelocityArray, Except.bind_eq_ok] at h
  obtain ⟨_, _, _, _, h⟩ := h
  cases h
  rfl

theorem reset_geometry (fl : ℚ → ℚ) (RAND_MAX : Nat) (rnd : Nat → Nat) (w w2 : World)
    (h : reset fl RAND_MAX rnd w = .ok w2) : w2.sys.geometry = w.sys.geometry := by
  simp only [reset, Except.bind_eq_ok] at h
  obtain ⟨⟨hp, hv⟩, _, w1, h1, h2⟩ := h
  have g1 := setPositionArray_geometry _ _ _ _ _ h1
  have g2 := setVelocityArray_geometry _ _ _ _ _ h2
  rw [g2, g1]
  rfl

/-- No public operation that returns changes the fixed members. -/
theorem step_geometry (G : Gpu) (fl : ℚ → ℚ) (RAND_MAX : Nat) (op : Op) (w w2 : World)
    (h : step G fl RAND_MAX op w = .ok w2) : w2.sys.geometry = w.sys.geometry := by
  cases op with
  | update dt => exact update_geometry G dt w w2 h
  | reset rnd => exact reset_geometry fl RAND_MAX rnd w w2 h
  | getPositionArray =>
    simp only [step] at h
    cases e : getPositionArray w with
    | error f => rw [e] at h; cases h
    | ok r =>
      rw [e] at h
      cases h
      exact getPositionArray_geometry w r.2 r.1 e
  | setPositionArray d a b => exact setPositionArray_geometry d a b w w2 h
  | getVelocityArray =>
    simp only [step] at h
    cases e : getVelocityArray w with
    | error f => rw [e] at h; cases h
    | ok r =>
      rw [e] at h
      cases h
      exact getVelocityArray_geometry w r.2 r.1 e
  | setVelocityArray d a b => exact setVelocityArray_geometry d a b w w2 h
  | setIterations i => cases h; rfl
  | setDamping x => cases h; rfl
  | setGravity x => cases h; rfl
  | setCollideSpring x => cases h; rfl
  | setCollideDamping x => cases h; rfl
  | setCollideShear x => cases h; rfl
  | setCollideAttraction x => cases h; rfl

/-- No sequence of public operations that returns changes the fixed members. -/
theorem run_geometry (G : Gpu) (fl : ℚ → ℚ) (RAND_MAX : Nat) (ops : List Op) :
    ∀ w w2 : World, run G fl RAND_MAX ops w = .ok w2 → w2.sys.geometry = w.sys.geometry := by
  induction ops with
  | nil => intro w w2 h; cases h; rfl
  | cons op ops ih =>
    intro w w2 h
    simp only [run, Except.bind_eq_ok] at h
    obtain ⟨w1, h1, h2⟩ := h
    rw [ih w1 w2 h2, step_geometry G fl RAND_MAX op w w1 h1]

/-! ## The constructor -/

theorem toUInt_toInt (n : Nat) (h : n < 4294967296) : toUInt (toInt n) = n := by
  have h2 : n % 4294967296 = n := Nat.mod_eq_of_lt h
  by_cases c : n < 2147483648
  · simp only [toInt, UINT_RANGE, h2, c, if_true, toUInt]
    omega
  · simp only [toInt, UINT_RANGE, h2, c, if_false, toUInt]
    omega

/-- The constructor returns for every particle count and grid size.  The state
it returns has the flag set, a registered buffer object and live device
arrays; its fixed members are the arguments, the 32-bit product of the grid
dimensions, the radius `1 / 128`, the origin `(-1, -1)` and the cell size
`particleRadius * 2`; the device constant holds `m_params`; and when
`12 * numParticles` fits an `int` the buffer sizes match the particle count. -/
theorem newParticleSystem_spec (G : Gpu) (raw : World) (numParticles : Nat)
    (gridSize : Nat × Nat) (hN : numParticles < 4294967296) :
    ∃ w, newParticleSystem G raw numParticles gridSize = .ok w ∧
      w.sys.geometry =
        { initialized := true
          numParticles := numParticles
          gridSize := gridSize
          numGridCells := umul gridSize.1 gridSize.2
          paramsGridSize := gridSize
          paramsNumCells := umul gridSize.1 gridSize.2
          paramsNumBodies := numParticles
          particleRadius := 1 / 128
          worldOrigin := (-1, -1)
          cellSize := (1 / 128 * 2, 1 / 128 * 2)
          boundaryDamping := -(1 / 2) } ∧
      Ready w ∧ w.params = w.sys.m_params ∧
      (12 * numParticles ≤ INT_MAX → SizesMatch w) := by
  have t := toUInt_toInt numParticles hN
  simp only [newParticleSystem, _initialize, assert, createVBO, registerGLBufferObject,
    allocateFloats, allocateUints, setParameters, setF, setU, uninit, t, Bool.not_false,
    if_true, bind, Except.bind, pure, Except.pure]
  refine ⟨_, rfl, rfl, ?_, rfl, ?_⟩
  · simp [Ready, Block.isLive]
  · intro h12
    simp only [INT_MAX] at h12
    have m : (SIZEOF * DIM * numParticles) % UINT_RANGE / SIZEOF = 3 * numParticles := by
      simp only [SIZEOF, DIM, UINT_RANGE]
      omega
    have u : umul numParticles DIM = 3 * numParticles := by
      rw [umul_of_lt _ _ (by simp only [DIM]; omega)]; simp only [DIM]; ring
    simp only [SizesMatch, Block.isLive, Block.size, INT_MAX, m, u, List.length_map,
      List.length_range, List.length_replicate]
    simp
    omega

/-! ## Operations without caller-supplied arrays always return -/

theorem Block.isLive_live {α : Type} (d : List α) : (Block.live d).isLive = true := rfl

theorem Block.size_live {α : Type} (d : List α) : (Block.live d).size = d.length := rfl

theorem update_good (G : Gpu) (w : World) (dt : ℚ) (h : Good w) :
    ∃ w2, update G dt w = .ok w2 ∧ Good w2 := by
  obtain ⟨hr, hs⟩ := h
  obtain ⟨s, p, l⟩ := w
  obtain ⟨h1, h2, h3, h4, h5, h6, h7, h8, h9, h10⟩ := hr
  simp only [Block.isLive_iff] at h3 h4 h5 h6 h7 h8 h9 h10
  obtain ⟨d3, h3⟩ := h3
  obtain ⟨d4, h4⟩ := h4
  obtain ⟨d5, h5⟩ := h5
  obtain ⟨d6, h6⟩ := h6
  obtain ⟨d7, h7⟩ := h7
  obtain ⟨d8, h8⟩ := h8
  obtain ⟨d9, h9⟩ := h9
  obtain ⟨d10, h10⟩ := h10
  cases s
  simp only at h1 h2 h3 h4 h5 h6 h7 h8 h9 h10
  subst h1 h2 h3 h4 h5 h6 h7 h8 h9 h10
  simp only [SizesMatch, Block.isLive, Block.size, true_and] at hs
  obtain ⟨a1, a2, a3, a4, a5⟩ := hs
  simp [update, assert, mapGLBufferObject, setParameters, integrateSystem,
    calcHash, sortParticles, reorderDataAndFindCellStart, collide, unmapGLBufferObject,
    World.record, getF, setF, getU, setU, Block.deref, bind, Except.bind, pure, Except.pure,
    Good, Ready, SizesMatch, Block.isLive, Block.size, refill, a1, a2, a3, a4, a5]

theorem reset_good (fl : ℚ → ℚ) (RAND_MAX : Nat) (rnd : Nat → Nat) (w : World) (h : Good w) :
    ∃ w2, reset fl RAND_MAX rnd w = .ok w2 ∧ Good w2 := by
  obtain ⟨hr, hs⟩ := h
  obtain ⟨hp2, hv2, r, l1, l2, -, -⟩ := reset_spec fl RAND_MAX rnd w hs
  refine ⟨_, r, ?_⟩
  obtain ⟨h1, h2, h3, h4, h5, h6, h7, h8, h9, h10⟩ := hr
  obtain ⟨a1, a2, a3, a4, a5, a6, a7⟩ := hs
  simp only [Good, Ready, SizesMatch]
  simp [*, Block.isLive_live, Block.size_live]

theorem getPositionArray_good (w : World) (h : Good w) :
    ∃ r, getPositionArray w = .ok r ∧ Good r.2 := by
  obtain ⟨hr, hs⟩ := h
  obtain ⟨pos, e, l, r⟩ := getPositionArray_spec w hs
  refine ⟨_, r, ?_⟩
  obtain ⟨h1, h2, h3, h4, h5, h6, h7, h8, h9, h10⟩ := hr
  obtain ⟨a1, a2, a3, a4, a5, a6, a7⟩ := hs
  simp only [Good, Ready, SizesMatch]
  simp [*, Block.isLive_live, Block.size_live]

theorem getVelocityArray_good (w : World) (h : Good w) :
    ∃ r, getVelocityArray w = .ok r ∧ Good r.2 := by
  obtain ⟨hr, hs⟩ := h
  obtain ⟨vel, e, l, r⟩ := getVelocityArray_spec w hs
  refine ⟨_, r, ?_⟩
  obtain ⟨h1, h2, h3, h4, h5, h6, h7, h8, h9, h10⟩ := hr
  obtain ⟨a1, a2, a3, a4, a5, a6, a7⟩ := hs
  simp only [Good, Ready, SizesMatch]
  simp [*, Block.isLive_live, Block.size_live]

/-- On a good state every operation without caller-supplied arrays returns,
and the state it returns is good. -/
theorem step_good (G : Gpu) (fl : ℚ → ℚ) (RAND_MAX : Nat) (op : Op) (w : World)
    (hop : op.takesNoArray = true) (h : Good w) :
    ∃ w2, step G fl RAND_MAX op w = .ok w2 ∧ Good w2 := by
  cases op with
  | update dt => exact update_good G w dt h
  | reset rnd => exact reset_good fl RAND_MAX rnd w h
  | getPositionArray =>
    obtain ⟨r, e, g⟩ := getPositionArray_good w h
    exact ⟨r.2, by simp [step, e, Except.map], g⟩
  | setPositionArray d a b => simp [Op.takesNoArray] at hop
  | getVelocityArray =>
    obtain ⟨r, e, g⟩ := getVelocityArray_good w h
    exact ⟨r.2, by simp [step, e, Except.map], g⟩
  | setVelocityArray d a b => simp [Op.takesNoArray] at hop
  | setIterations i => exact ⟨_, rfl, h⟩
  | setDamping x => exact ⟨_, rfl, h⟩
  | setGravity x => exact ⟨_, rfl, h⟩
  | setCollideSpring x => exact ⟨_, rfl, h⟩
  | setCollideDamping x => exact ⟨_, rfl, h⟩
  | setCollideShear x => exact ⟨_, rfl, h⟩
  | setCollideAttraction x => exact ⟨_, rfl, h⟩

/-- On a good state every sequence of operations without caller-supplied
arrays returns. -/
theorem run_good (G : Gpu) (fl : ℚ → ℚ) (RAND_MAX : Nat) (ops : List Op) :
    ∀ w : World, (∀ op ∈ ops, op.takesNoArray = true) → Good w →
      ∃ w2, run G fl RAND_MAX ops w = .ok w2 ∧ Good w2 := by
  induction ops with
  | nil => intro w _ h; exact ⟨w, rfl, h⟩
  | cons op ops ih =>
    intro w hops h
    obtain ⟨w1, e1, g1⟩ := step_good G fl RAND_MAX op w (hops op (List.mem_cons_self _ _)) h
    obtain ⟨w2, e2, g2⟩ := ih w1 (fun o ho => hops o (List.mem_cons_of_mem _ ho)) g1
    exact ⟨w2, by simp [run, e1, e2, bind, Except.bind], g2⟩

/-! ## The layout of the arrays is fixed -/

theorem Block.isLive_eq {α : Type} (b : Block α) : b.isLive = b.length?.isSome := by
  cases b <;> rfl

theorem Block.size_eq {α : Type} (b : Block α) : b.size = b.length?.getD 0 := by
  cases b <;> rfl

theorem Block.deref_eq_ok {α : Type} (b : Block α) (d : List α) :
    b.deref = .ok d ↔ b = .live d := by
  cases b <;> simp [Block.deref]

theorem Block.store_length? {α : Type} (b b2 : Block α) (i : Nat) (v : α)
    (h : b.store i v = .ok b2) : b2.length? = b.length? := by
  cases b with
  | null => cases h
  | dangling => cases h
  | live d =>
    simp only [Block.store] at h
    split at h
    · cases h; simp [Block.length?]
    · cases h

theorem blit_length {α : Type} (dst src : List α) (o n : Nat) (h1 : o + n ≤ dst.length)
    (h2 : n ≤ src.length) : (blit dst o src n).length = dst.length := by
  simp only [blit, List.length_append, List.length_take, List.length_drop]
  omega

theorem copyArrayToDevice_length? (device host r : Block ℚ) (offset size : Int)
    (h : copyArrayToDevice device host offset size = .ok r) : r.length? = device.length? := by
  simp only [copyArrayToDevice, Except.bind_eq_ok, Block.deref_eq_ok] at h
  obtain ⟨d, hd, hh, eh, o, _, n, _, h⟩ := h
  split at h
  · rename_i c
    cases h
    subst hd
    simp only [Block.length?, blit_length d hh o n c.1 c.2]
  · cases h

theorem copyArrayFromDevice_length? (host device r : Block ℚ) (vbo : Option (Block ℚ))
    (size : Int) (h : copyArrayFromDevice host device vbo size = .ok r) :
    r.length? = host.length? := by
  simp only [copyArrayFromDevice, Except.bind_eq_ok, Block.deref_eq_ok] at h
  obtain ⟨hh, eh, d, _, n, _, h⟩ := h
  split at h
  · rename_i c
    cases h
    subst eh
    simp only [Block.length?, blit_length hh d 0 n (by omega) c.2]
  · cases h

theorem layout_setF (b : FBuf) (v : Block ℚ) (s s0 : ParticleSystem)
    (hs : s.layout = s0.layout) (hv : v.length? = (getF b s).length?) :
    (setF b v s).layout = s0.layout := by
  rw [← hs]
  cases b <;> simp only [getF] at hv <;> simp [setF, ParticleSystem.layout, hv]

theorem layout_setU (b : UBuf) (v : Block Nat) (s s0 : ParticleSystem)
    (hs : s.layout = s0.layout) (hv : v.length? = (getU b s).length?) :
    (setU b v s).layout = s0.layout := by
  rw [← hs]
  cases b <;> simp only [getU] at hv <;> simp [setU, ParticleSystem.layout, hv]

theorem length?_refill {α : Type} (d : List α) (f : Nat → α) :
    (Block.live (refill d f)).length? = (Block.live d).length? := by
  simp [Block.length?, refill]

theorem getF_setF_length? (a b : FBuf) (v : Block ℚ) (s : ParticleSystem)
    (hv : v.length? = (getF b s).length?) :
    (getF a (setF b v s)).length? = (getF a s).length? := by
  cases a <;> cases b <;> simp only [getF] at hv <;> simp [getF, setF, hv]

theorem getU_setU_length? (a b : UBuf) (v : Block Nat) (s : ParticleSystem)
    (hv : v.length? = (getU b s).length?) :
    (getU a (setU b v s)).length? = (getU a s).length? := by
  cases a <;> cases b <;> simp only [getU] at hv <;> simp [getU, setU, hv]

theorem getF_setU (a : FBuf) (b : UBuf) (v : Block Nat) (s : ParticleSystem) :
    getF a (setU b v s) = getF a s := by
  cases a <;> cases b <;> rfl

theorem getU_setF (a : UBuf) (b : FBuf) (v : Block ℚ) (s : ParticleSystem) :
    getU a (setF b v s) = getU a s := by
  cases a <;> cases b <;> rfl

theorem integrateSystem_layout (G : Gpu) (a b : FBuf) (dt : ℚ) (n : Nat) (w w2 : World)
    (h : integrateSystem G a b dt n w = .ok w2) : w2.sys.layout = w.sys.layout := by
  simp only [integrateSystem, Except.bind_eq_ok, Block.deref_eq_ok] at h
  obtain ⟨p, hp, v, hv, h⟩ := h
  cases h
  have e1 : (Block.live (refill p (G.integrateSystem w.params p v dt n).1)).length? =
      (getF a w.sys).length? := by rw [hp]; exact length?_refill _ _
  refine layout_setF _ _ _ _ (layout_setF _ _ _ _ rfl e1) ?_
  rw [getF_setF_length? _ _ _ _ e1, hv]
  exact length?_refill _ _

theorem calcHash_layout (G : Gpu) (a b : UBuf) (c : FBuf) (n : Nat) (w w2 : World)
    (h : calcHash G a b c n w = .ok w2) : w2.sys.layout = w.sys.layout := by
  simp only [calcHash, Except.bind_eq_ok, Block.deref_eq_ok] at h
  obtain ⟨x, hx, y, hy, p, hp, h⟩ := h
  cases h
  have e1 : (Block.live (refill x (G.calcHash w.params x y p n).1)).length? =
      (getU a w.sys).length? := by rw [hx]; exact length?_refill _ _
  refine layout_setU _ _ _ _ (layout_setU _ _ _ _ rfl e1) ?_
  rw [getU_setU_length? _ _ _ _ e1, hy]
  exact length?_refill _ _

theorem sortParticles_layout (G : Gpu) (a b : UBuf) (n : Nat) (w w2 : World)
    (h : sortParticles G a b n w = .ok w2) : w2.sys.layout = w.sys.layout := by
  simp only [sortParticles, Except.bind_eq_ok, Block.deref_eq_ok] at h
  obtain ⟨x, hx, y, hy, h⟩ := h
  cases h
  have e1 : (Block.live (refill x (G.sortParticles w.params x y n).1)).length? =
      (getU a w.sys).length? := by rw [hx]; exact length?_refill _ _
  refine layout_setU _ _ _ _ (layout_setU _ _ _ _ rfl e1) ?_
  rw [getU_setU_length? _ _ _ _ e1, hy]
  exact length?_refill _ _

theorem reorderDataAndFindCellStart_layout (G : Gpu) (a b : UBuf) (c d : FBuf) (e f : UBuf)
    (g k : FBuf) (n m : Nat) (w w2 : World)
    (h : reorderDataAndFindCellStart G a b c d e f g k n m w = .ok w2) :
    w2.sys.layout = w.sys.layout := by
  simp only [reorderDataAndFindCellStart, Except.bind_eq_ok, Block.deref_eq_ok] at h
  obtain ⟨cs, hcs, ce, hce, sp, hsp, sv, hsv, x, _, y, _, op, _, ov, _, h⟩ := h
  cases h
  generalize G.reorderDataAndFindCellStart w.params cs ce sp sv x y op ov n m = out
  have e1 : (Block.live (refill cs out.1.1)).length? = (getU a w.sys).length? := by
    rw [hcs]; exact length?_refill _ _
  have e2 : (Block.live (refill ce out.1.2)).length? =
      (getU b (setU a (.live (refill cs out.1.1)) w.sys)).length? := by
    rw [getU_setU_length? _ _ _ _ e1, hce]; exact length?_refill _ _
  have e3 : (Block.live (refill sp out.2.1)).length? =
      (getF c (setU b (.live (refill ce out.1.2))
        (setU a (.live (refill cs out.1.1)) w.sys))).length? := by
    rw [getF_setU, getF_setU, hsp]; exact length?_refill _ _
  refine layout_setF _ _ _ _ (layout_setF _ _ _ _ (layout_setU _ _ _ _
    (layout_setU _ _ _ _ rfl e1) e2) e3) ?_
  rw [getF_setF_length? _ _ _ _ e3, getF_setU, getF_setU, hsv]
  exact length?_refill _ _

theorem collide_layout (G : Gpu) (a b c : FBuf) (d e f : UBuf) (n m : Nat) (w w2 : World)
    (h : collide G a b c d e f n m w = .ok w2) : w2.sys.layout = w.sys.layout := by
  simp only [collide, Except.bind_eq_ok, Block.deref_eq_ok] at h
  obtain ⟨nv, hnv, _, _, _, _, _, _, _, _, _, _, h⟩ := h
  cases h
  refine layout_setF _ _ _ _ rfl ?_
  rw [hnv]
  exact length?_refill _ _

theorem update_layout (G : Gpu) (dt : ℚ) (w w2 : World) (h : update G dt w = .ok w2) :
    w2.sys.layout = w.sys.layout := by
  simp only [update, Except.bind_eq_ok] at h
  obtain ⟨_, _, w1, h1, w3, h3, w4, h4, w5, h5, w6, h6, w7, h7, h⟩ := h
  cases h
  have g1 : w1.sys.layout = w.sys.layout := by
    simp only [mapGLBufferObject, World.record] at h1
    split at h1
    · cases h1; rfl
    · cases h1
  have g3 := integrateSystem_layout _ _ _ _ _ _ _ h3
  have g4 := calcHash_layout _ _ _ _ _ _ _ h4
  have g5 := sortParticles_layout _ _ _ _ _ _ h5
  have g6 := reorderDataAndFindCellStart_layout _ _ _ _ _ _ _ _ _ _ _ _ _ h6
  have g7 := collide_layout _ _ _ _ _ _ _ _ _ _ _ h7
  simp only [setParameters] at g3
  simp only [unmapGLBufferObject, World.record]
  rw [g7, g6, g5, g4, g3, g1]

theorem setPositionArray_layout (data : Block ℚ) (start count : Int) (w w2 : World)
    (h : setPositionArray data start count w = .ok w2) : w2.sys.layout = w.sys.layout := by
  simp only [setPositionArray, Except.bind_eq_ok] at h
  obtain ⟨_, _, w1, h1, sd, _, cd, _, vbo, hv, h⟩ := h
  cases h
  simp only [unregisterGLBufferObject] at h1
  split at h1
  · rename_i c
    cases h1
    simp only [glBufferSubData, World.record] at hv
    have l := copyArrayToDevice_length? _ _ _ _ _ hv
    simp only [registerGLBufferObject, World.record, ParticleSystem.layout, l, c]
  · cases h1

theorem setVelocityArray_layout (data : Block ℚ) (start count : Int) (w w2 : World)
    (h : setVelocityArray data start count w = .ok w2) : w2.sys.layout = w.sys.layout := by
  simp only [setVelocityArray, Except.bind_eq_ok] at h
  obtain ⟨_, _, _, _, _, _, d, hd, h⟩ := h
  cases h
  have l := copyArrayToDevice_length? _ _ _ _ _ hd
  simp only [ParticleSystem.layout, l]

theorem getPositionArray_layout (w w2 : World) (p : HostBuf)
    (h : getPositionArray w = .ok (p, w2)) : w2.sys.layout = w.sys.layout := by
  simp only [getPositionArray, Except.bind_eq_ok] at h
  obtain ⟨_, _, d, hd, h⟩ := h
  cases h
  have l := copyArrayFromDevice_length? _ _ _ _ _ hd
  simp only [ParticleSystem.layout, l]

theorem getVelocityArray_layout (w w2 : World) (p : HostBuf)
    (h : getVelocityArray w = .ok (p, w2)) : w2.sys.layout = w.sys.layout := by
  simp only [getVelocityArray, Except.bind_eq_ok] at h
  obtain ⟨_, _, d, hd, h⟩ := h
  cases h
  have l := copyArrayFromDevice_length? _ _ _ _ _ hd
  simp only [ParticleSystem.layout, l]

theorem resetLoop_length? (fl : ℚ → ℚ) (RAND_MAX : Nat) (rnd : Nat → Nat) (n : Nat) :
    ∀ (i p v : Nat) (hPos hVel : Block ℚ) (r : Block ℚ × Block ℚ),
      resetLoop fl RAND_MAX rnd n i p v hPos hVel = .ok r →
      r.1.length? = hPos.length? ∧ r.2.length? = hVel.length? := by
  induction n with
  | zero =>
    intro i p v hPos hVel r h
    simp only [resetLoop, pure, Except.pure] at h
    cases h
    exact ⟨rfl, rfl⟩
  | succ n ih =>
    intro i p v hPos hVel r h
    simp only [resetLoop, Except.bind_eq_ok] at h
    obtain ⟨b1, s1, _, _, b2, s2, _, _, b3, s3, _, _, c1, t1, _, _, c2, t2, _, _, c3, t3,
      _, _, h⟩ := h
    obtain ⟨a1, a2⟩ := ih _ _ _ _ _ _ h
    rw [a1, a2, Block.store_length? _ _ _ _ s3, Block.store_length? _ _ _ _ s2,
      Block.store_length? _ _ _ _ s1, Block.store_length? _ _ _ _ t3,
      Block.store_length? _ _ _ _ t2, Block.store_length? _ _ _ _ t1]
    exact ⟨rfl, rfl⟩

theorem reset_layout (fl : ℚ → ℚ) (RAND_MAX : Nat) (rnd : Nat → Nat) (w w2 : World)
    (h : reset fl RAND_MAX rnd w = .ok w2) : w2.sys.layout = w.sys.layout := by
  simp only [reset, Except.bind_eq_ok] at h
  obtain ⟨⟨hp, hv⟩, h0, w1, h1, h2⟩ := h
  have g0 := resetLoop_length? _ _ _ _ _ _ _ _ _ _ h0
  have g1 := setPositionArray_layout _ _ _ _ _ h1
  have g2 := setVelocityArray_layout _ _ _ _ _ h2
  rw [g2, g1]
  simp only [ParticleSystem.layout, g0.1, g0.2]

/-- No public operation that returns changes the layout of the arrays. -/
theorem step_layout (G : Gpu) (fl : ℚ → ℚ) (RAND_MAX : Nat) (op : Op) (w w2 : World)
    (h : step G fl RAND_MAX op w = .ok w2) : w2.sys.layout = w.sys.layout := by
  cases op with
  | update dt => exact update_layout G dt w w2 h
  | reset rnd => exact reset_layout fl RAND_MAX rnd w w2 h
  | getPositionArray =>
    simp only [step] at h
    cases e : getPositionArray w with
    | error f => rw [e] at h; cases h
    | ok r =>
      rw [e] at h
      cases h
      exact getPositionArray_layout w r.2 r.1 e
  | setPositionArray d a b => exact setPositionArray_layout d a b w w2 h
  | getVelocityArray =>
    simp only [step] at h
    cases e : getVelocityArray w with
    | error f => rw [e] at h; cases h
    | ok r =>
      rw [e] at h
      cases h
      exact getVelocityArray_layout w r.2 r.1 e
  | setVelocityArray d a b => exact setVelocityArray_layout d a b w w2 h
  | setIterations i => cases h; rfl
  | setDamping x => cases h; rfl
  | setGravity x => cases h; rfl
  | setCollideSpring x => cases h; rfl
  | setCollideDamping x => cases h; rfl
  | setCollideShear x => cases h; rfl
  | setCollideAttraction x => cases h; rfl

/-- No sequence of public operations that returns changes the layout of the
arrays. -/
theorem run_layout (G : Gpu) (fl : ℚ → ℚ) (RAND_MAX : Nat) (ops : List Op) :
    ∀ w w2 : World, run G fl RAND_MAX ops w = .ok w2 → w2.sys.layout = w.sys.layout := by
  induction ops with
  | nil => intro w w2 h; cases h; rfl
  | cons op ops ih =>
    intro w w2 h
    simp only [run, Except.bind_eq_ok] at h
    obtain ⟨w1, h1, h2⟩ := h
    rw [ih w1 w2 h2, step_layout G fl RAND_MAX op w w1 h1]

/-! ### What the layout and the fixed members decide -/

theorem ready_of_same (w w2 : World) (hl : w2.sys.layout = w.sys.layout)
    (hg : w2.sys.geometry = w.sys.geometry) (h : Ready w) : Ready w2 := by
  have f := congrArg Geometry.initialized hg
  have e0 := congrArg Layout.registered hl
  have e1 := congrArg Layout.posVbo hl
  have e2 := congrArg Layout.dVel hl
  have e3 := congrArg Layout.dSortedPos hl
  have e4 := congrArg Layout.dSortedVel hl
  have e5 := congrArg Layout.dGridParticleHash hl
  have e6 := congrArg Layout.dGridParticleIndex hl
  have e7 := congrArg Layout.dCellStart hl
  have e8 := congrArg Layout.dCellEnd hl
  simp only [ParticleSystem.layout, ParticleSystem.geometry] at f e0 e1 e2 e3 e4 e5 e6 e7 e8
  simp only [Ready, Block.isLive_eq] at h
  simp only [Ready, Block.isLive_eq, f, e0, e1, e2, e3, e4, e5, e6, e7, e8]
  exact h

theorem sizesMatch_of_same (w w2 : World) (hl : w2.sys.layout = w.sys.layout)
    (hg : w2.sys.geometry = w.sys.geometry) (h : SizesMatch w) : SizesMatch w2 := by
  have f := congrArg Geometry.initialized hg
  have n := congrArg Geometry.numParticles hg
  have e0 := congrArg Layout.registered hl
  have e1 := congrArg Layout.hPos hl
  have e2 := congrArg Layout.hVel hl
  have e3 := congrArg Layout.posVbo hl
  have e4 := congrArg Layout.dVel hl
  simp only [ParticleSystem.layout, ParticleSystem.geometry] at f n e0 e1 e2 e3 e4
  simp only [SizesMatch, Block.isLive_eq, Block.size_eq] at h
  simp only [SizesMatch, Block.isLive_eq, Block.size_eq, f, n, e0, e1, e2, e3, e4]
  exact h

theorem allocated_of_same (w w2 : World) (hl : w2.sys.layout = w.sys.layout)
    (hg : w2.sys.geometry = w.sys.geometry) (h : Allocated w) : Allocated w2 := by
  have e1 := congrArg Layout.hPos hl
  have e2 := congrArg Layout.hVel hl
  have e3 := congrArg Layout.hCellStart hl
  have e4 := congrArg Layout.hCellEnd hl
  simp only [ParticleSystem.layout] at e1 e2 e3 e4
  obtain ⟨r, h⟩ := h
  refine ⟨ready_of_same w w2 hl hg r, ?_⟩
  simp only [Block.isLive_eq] at h
  simp only [Block.isLive_eq, e1, e2, e3, e4]
  exact h

/-- Every state that a sequence of public operations reaches from a good
state is good. -/
theorem run_keeps_good (G : Gpu) (fl : ℚ → ℚ) (RAND_MAX : Nat) (ops : List Op) (w w2 : World)
    (h : run G fl RAND_MAX ops w = .ok w2) (g : Good w) : Good w2 :=
  ⟨ready_of_same w w2 (run_layout G fl RAND_MAX ops w w2 h) (run_geometry G fl RAND_MAX ops w w2 h)
      g.1,
   sizesMatch_of_same w w2 (run_layout G fl RAND_MAX ops w w2 h)
      (run_geometry G fl RAND_MAX ops w w2 h) g.2⟩

/-! ### The constructed object, `_finalize`, and `reset` on odd objects -/

/-- The host arrays and the flag of a constructed object: `m_numParticles*DIM`
floats each, the product being the 32-bit one. -/
theorem newParticleSystem_host (G : Gpu) (raw : World) (numParticles : Nat)
    (gridSize : Nat × Nat) (hN : numParticles < 4294967296) :
    ∃ w, newParticleSystem G raw numParticles gridSize = .ok w ∧
      w.sys.m_bInitialized = true ∧ w.sys.m_numParticles = numParticles ∧
      w.sys.m_hPos = .live (List.replicate (umul numParticles DIM) 0) ∧
      w.sys.m_hVel = .live (List.replicate (umul numParticles DIM) 0) ∧
      Allocated w := by
  have t := toUInt_toInt numParticles hN
  simp only [newParticleSystem, _initialize, assert, createVBO, registerGLBufferObject,
    allocateFloats, allocateUints, setParameters, setF, setU, uninit, t, Bool.not_false,
    if_true, bind, Except.bind, pure, Except.pure]
  refine ⟨_, rfl, rfl, rfl, rfl, rfl, ?_⟩
  simp [Allocated, Ready, Block.isLive]

/-- `_finalize` on an object whose arrays are all live returns: it releases
them, ends the registration, deletes the buffer object, and assigns no other
member. -/
theorem finalize_spec (w : World) (h : Allocated w) :
    _finalize w = .ok { w with sys := finalized w.sys, log := w.log ++ finalizeCalls } := by
  obtain ⟨s, p, l⟩ := w
  obtain ⟨⟨h1, h2, h3, h4, h5, h6, h7, h8, h9, h10⟩, h11, h12, h13, h14⟩ := h
  simp only [Block.isLive_iff] at h3 h4 h5 h6 h7 h8 h9 h10 h11 h12 h13 h14
  obtain ⟨d3, h3⟩ := h3
  obtain ⟨d4, h4⟩ := h4
  obtain ⟨d5, h5⟩ := h5
  obtain ⟨d6, h6⟩ := h6
  obtain ⟨d7, h7⟩ := h7
  obtain ⟨d8, h8⟩ := h8
  obtain ⟨d9, h9⟩ := h9
  obtain ⟨d10, h10⟩ := h10
  obtain ⟨d11, h11⟩ := h11
  obtain ⟨d12, h12⟩ := h12
  obtain ⟨d13, h13⟩ := h13
  obtain ⟨d14, h14⟩ := h14
  cases s
  simp only at h1 h2 h3 h4 h5 h6 h7 h8 h9 h10 h11 h12 h13 h14
  subst h1 h2 h3 h4 h5 h6 h7 h8 h9 h10 h11 h12 h13 h14
  simp [_finalize, assert, Block.release, freeFloats, freeUints, unregisterGLBufferObject,
    glDeleteBuffers, getF, setF, getU, setU, finalized, finalizeCalls, bind, Except.bind, pure,
    Except.pure]

/-- The loop of `reset` on a host position array of two elements ends in the
store to its third element. -/
theorem resetLoop_overrun (fl : ℚ → ℚ) (RAND_MAX : Nat) (rnd : Nat → Nat) (n i v : Nat)
    (a b : ℚ) (hVel : Block ℚ) (hn : 0 < n) :
    resetLoop fl RAND_MAX rnd n i 0 v (.live [a, b]) hVel = .error .invalid := by
  cases n with
  | zero => omega
  | succ m =>
    simp [resetLoop, Block.store, postInc, INT_MAX, bind, Except.bind]

/-- C3, as the code has it.  For every particle count `N` with
`12 * N ≤ INT_MAX` and every grid size the constructor returns, and in every
state `w` that a sequence of public operations reaches from the constructed
object (whatever velocities earlier `update` or `setVelocityArray` calls
left), `reset()` returns; afterwards all `3 * N` components of the host
velocity buffer are zero, the third component of every position is zero, and
the two uploads cover the full range: `glBufferSubData` and
`copyArrayToDevice` are called with byte offset `0` (start 0) and byte size
`12 * N` (count `N`), so that the position store equals the host position
buffer and the device velocity array equals the host velocity buffer.  Every
sequence of operations without caller-supplied arrays does reach such a
state. -/
theorem reset_zeroes_velocities_and_uploads_all (G : Gpu) (fl : ℚ → ℚ) (RAND_MAX : Nat)
    (rnd : Nat → Nat) (raw : World) (numParticles : Nat) (gridSize : Nat × Nat)
    (ops : List Op) (h12 : 12 * numParticles ≤ 2147483647) :
    ∃ w0, newParticleSystem G raw numParticles gridSize = .ok w0 ∧
      (∀ w, run G fl RAND_MAX ops w0 = .ok w →
        ∃ w2 hp2, reset fl RAND_MAX rnd w = .ok w2 ∧
          w2.sys.m_hVel = .live (List.replicate (3 * numParticles) 0) ∧
          w2.sys.m_hPos = .live hp2 ∧ hp2.length = 3 * numParticles ∧
          (∀ k, k < numParticles → hp2[3 * k + 2]? = some 0) ∧
          w2.log = w.log ++
            [Call.unregisterGLBufferObject, Call.glBindBuffer true,
             Call.glBufferSubData 0 (12 * (numParticles : Int)),
             Call.glBindBuffer false, Call.registerGLBufferObject,
             Call.copyArrayToDevice 0 (12 * (numParticles : Int))] ∧
          w2.sys.m_posVbo = w2.sys.m_hPos ∧ w2.sys.m_dVel = w2.sys.m_hVel ∧
          w2.sys.m_numParticles = numParticles) ∧
      ((∀ op ∈ ops, op.takesNoArray = true) → ∃ w, run G fl RAND_MAX ops w0 = .ok w) := by
  obtain ⟨w0, e, g, r, -, sm⟩ :=
    newParticleSystem_spec G raw numParticles gridSize (by omega)
  have good0 : Good w0 := ⟨r, sm h12⟩
  refine ⟨w0, e, ?_, ?_⟩
  · intro w hw
    have gw := (run_geometry G fl RAND_MAX ops w0 w hw).trans g
    have n1 : w.sys.m_numParticles = numParticles := congrArg Geometry.numParticles gw
    obtain ⟨hp2, hv2, rr, l1, l2, a, b⟩ :=
      reset_spec fl RAND_MAX rnd w (run_keeps_good G fl RAND_MAX ops w0 w hw good0).2
    rw [n1] at rr l1 l2 a b
    have hz : hv2 = List.replicate (3 * numParticles) 0 := by
      apply List.ext_getElem?
      intro j
      by_cases hj : j < 3 * numParticles
      · rw [b j hj, List.getElem?_replicate, if_pos hj]
      · rw [List.getElem?_eq_none (by omega), List.getElem?_eq_none (by simp; omega)]
    refine ⟨_, hp2, rr, ?_, rfl, l1, fun k hk => (a k hk).2.2, rfl, rfl, rfl, n1⟩
    simp only [hz]
  · intro hops
    obtain ⟨w, hw, -⟩ := run_good G fl RAND_MAX ops w0 hops good0
    exact ⟨w, hw⟩

/-- Witness for C3 as the code has it: one particle on a 2 × 2 grid, binary32
rounding, `RAND_MAX = 2147483647`; a step is run first, which leaves the
velocity 7 that the device memory of the demonstration reads as; `reset` then
zeroes the three velocity components. -/
theorem reset_zeroes_velocities_and_uploads_all_witness :
    ∃ w0 w w2 hp2, newParticleSystem demoGpu rawWorld 1 (2, 2) = .ok w0 ∧
      run demoGpu binary32 2147483647 [.update 1] w0 = .ok w ∧
      reset binary32 2147483647 (fun _ => 12345) w = .ok w2 ∧
      w2.sys.m_hVel = .live (List.replicate (3 * 1) 0) ∧
      w2.sys.m_hPos = .live hp2 ∧ hp2.length = 3 * 1 ∧
      (∀ k, k < 1 → hp2[3 * k + 2]? = some 0) ∧
      w2.log = w.log ++
        [Call.unregisterGLBufferObject, Call.glBindBuffer true,
         Call.glBufferSubData 0 (12 * ((1 : Nat) : Int)),
         Call.glBindBuffer false, Call.registerGLBufferObject,
         Call.copyArrayToDevice 0 (12 * ((1 : Nat) : Int))] ∧
      w2.sys.m_posVbo = w2.sys.m_hPos ∧ w2.sys.m_dVel = w2.sys.m_hVel ∧
      w2.sys.m_numParticles = 1 := by
  obtain ⟨w0, e, a, b⟩ :=
    reset_zeroes_velocities_and_uploads_all demoGpu binary32 2147483647 (fun _ => 12345)
      rawWorld 1 (2, 2) [.update 1] (by decide)
  obtain ⟨w, hw⟩ := b (by simp [Op.takesNoArray])
  obtain ⟨w2, hp2, r⟩ := a w hw
  exact ⟨w0, w, w2, hp2, e, hw, r⟩

/-- C3 as stated fails where the element count of the host arrays wraps:
constructed with `numParticles = 1431655766`, the object has host arrays of
`1431655766 * 3 mod 2 ^ 32 = 2` floats (not `3 * N`), and `reset()` does not
return: its first iteration stores `m_hPos[2]`, outside the array. -/
theorem reset_overruns_wrapped_host_arrays :
    ∃ w0, newParticleSystem demoGpu rawWorld 1431655766 (1, 1) = .ok w0 ∧
      w0.sys.m_bInitialized = true ∧ w0.sys.m_numParticles = 1431655766 ∧
      w0.sys.m_hPos = .live [0, 0] ∧ w0.sys.m_hVel = .live [0, 0] ∧
      w0.sys.m_hVel.size ≠ 3 * 1431655766 ∧
      reset binary32 2147483647 (fun _ => 0) w0 = .error .invalid := by
  obtain ⟨w0, e, f, n, hp, hv, -⟩ :=
    newParticleSystem_host demoGpu rawWorld 1431655766 (1, 1) (by decide)
  have u : umul 1431655766 DIM = 2 := by
    simp [umul, DIM, UINT_RANGE]
  rw [u] at hp hv
  have hp2 : w0.sys.m_hPos = .live [0, 0] := hp
  have hv2 : w0.sys.m_hVel = .live [0, 0] := hv
  refine ⟨w0, e, f, n, hp2, hv2, ?_, ?_⟩
  · rw [hv2]; simp [Block.size]
  · simp only [reset, n, hp2, hv2,
      resetLoop_overrun binary32 2147483647 (fun _ => 0) 1431655766 0 0 0 0 (.live [0, 0])
        (by decide), bind, Except.bind]

/-! ## C6: the initialized check of the entry points -/

/-- Without host arrays the loop of `reset` does not complete: on an object
whose flag is clear, whose particle count is one and whose host position
pointer is null, `reset()` ends in the store `m_hPos[0] = ...`, before it
reaches the check inside `setPositionArray`. -/
theorem reset_without_host_arrays_stores_first :
    uninitializedWorld.sys.m_bInitialized = false ∧
    uninitializedWorld.sys.m_hPos = .null ∧
    reset binary32 2147483647 (fun _ => 0) uninitializedWorld = .error .invalid := by
  refine ⟨rfl, rfl, ?_⟩
  simp [reset, resetLoop, uninitializedWorld, rawWorld, Block.store, bind, Except.bind]

/-- C7, as the code has it.  For every `uint` particle count and every grid
size the constructor returns, and in every state that a sequence of public
operations (update, reset, the array accessors, the setters) reaches from it
the member `m_numParticles` is `numParticles`, `getGridSize()` returns
`gridSize` and the cell count is the 32-bit product `gridSize.x * gridSize.y`
(the product itself when it is below `2 ^ 32`); `getNumParticles()` returns
`numParticles` converted to `int`, which is `numParticles` when
`numParticles < 2 ^ 31`.  When `12 * numParticles` fits an `int`, every
sequence of operations without caller-supplied arrays does return. -/
theorem count_and_grid_fixed_at_construction (G : Gpu) (fl : ℚ → ℚ) (RAND_MAX : Nat)
    (raw : World) (numParticles : Nat) (gridSize : Nat × Nat) (ops : List Op)
    (hN : numParticles < 4294967296) :
    ∃ w0, newParticleSystem G raw numParticles gridSize = .ok w0 ∧
      (∀ w, run G fl RAND_MAX ops w0 = .ok w →
        w.sys.m_numParticles = numParticles ∧
        getNumParticles w = toInt numParticles ∧
        (numParticles < 2147483648 → getNumParticles w = (numParticles : Int)) ∧
        getGridSize w = gridSize ∧ w.sys.m_gridSize = gridSize ∧
        w.sys.m_numGridCells = (gridSize.1 * gridSize.2) % 4294967296 ∧
        (gridSize.1 * gridSize.2 < 4294967296 →
          w.sys.m_numGridCells = gridSize.1 * gridSize.2)) ∧
      (12 * numParticles ≤ 2147483647 → (∀ op ∈ ops, op.takesNoArray = true) →
        ∃ w, run G fl RAND_MAX ops w0 = .ok w) := by
  obtain ⟨w0, e, g, r, -, sm⟩ := newParticleSystem_spec G raw numParticles gridSize hN
  refine ⟨w0, e, ?_, ?_⟩
  · intro w hw
    have gw := (run_geometry G fl RAND_MAX ops w0 w hw).trans g
    have n1 : w.sys.m_numParticles = numParticles := congrArg Geometry.numParticles gw
    have n2 : w.sys.m_params.gridSize = gridSize := congrArg Geometry.paramsGridSize gw
    have n3 : w.sys.m_gridSize = gridSize := congrArg Geometry.gridSize gw
    have n4 : w.sys.m_numGridCells = umul gridSize.1 gridSize.2 :=
      congrArg Geometry.numGridCells gw
    refine ⟨n1, ?_, ?_, n2, n3, ?_, ?_⟩
    · rw [getNumParticles, n1]
    · intro hlt
      rw [getNumParticles, n1, toInt_of_lt _ hlt]
    · rw [n4]; rfl
    · intro hlt
      rw [n4, umul_of_lt _ _ hlt]
  · intro h12 hops
    obtain ⟨w, hw, -⟩ := run_good G fl RAND_MAX ops w0 hops ⟨r, sm h12⟩
    exact ⟨w, hw⟩

/-- Witness for C7 as the code has it: one particle on a 2 × 2 grid, then a
step, a reset, both downloads and two setters. -/
theorem count_and_grid_fixed_at_construction_witness :
    ∃ w0, newParticleSystem demoGpu rawWorld 1 (2, 2) = .ok w0 ∧
      (∀ w, run demoGpu binary32 2147483647
          [.update 1, .reset (fun _ => 12345), .getPositionArray, .getVelocityArray,
           .setIterations 3, .setGravity (-1)] w0 = .ok w →
        w.sys.m_numParticles = 1 ∧
        getNumParticles w = toInt 1 ∧
        (1 < 2147483648 → getNumParticles w = ((1 : Nat) : Int)) ∧
        getGridSize w = (2, 2) ∧ w.sys.m_gridSize = (2, 2) ∧
        w.sys.m_numGridCells = ((2, 2) : Nat × Nat).1 * ((2, 2) : Nat × Nat).2 % 4294967296 ∧
        (((2, 2) : Nat × Nat).1 * ((2, 2) : Nat × Nat).2 < 4294967296 →
          w.sys.m_numGridCells = ((2, 2) : Nat × Nat).1 * ((2, 2) : Nat × Nat).2)) ∧
      (12 * 1 ≤ 2147483647 →
        (∀ op ∈ ([.update 1, .reset (fun _ => 12345), .getPositionArray, .getVelocityArray,
           .setIterations 3, .setGravity (-1)] : List Op), op.takesNoArray = true) →
        ∃ w, run demoGpu binary32 2147483647
          [.update 1, .reset (fun _ => 12345), .getPositionArray, .getVelocityArray,
           .setIterations 3, .setGravity (-1)] w0 = .ok w) :=
  count_and_grid_fixed_at_construction demoGpu binary32 2147483647 rawWorld 1 (2, 2)
    [.update 1, .reset (fun _ => 12345), .getPositionArray, .getVelocityArray,
     .setIterations 3, .setGravity (-1)] (by decide)

/-- C7 as stated fails at the top of the `uint` range: constructed with
`numParticles = 2147483648` and `gridSize = (65536, 65536)`, the object
returns -2147483648 from `getNumParticles()` and has a cell count of 0, while
`gridSize.x * gridSize.y` is 4294967296. -/
theorem getNumParticles_and_cell_count_wrap :
    ∃ w0, newParticleSystem demoGpu rawWorld 2147483648 (65536, 65536) = .ok w0 ∧
      getNumParticles w0 = -2147483648 ∧ getNumParticles w0 ≠ 2147483648 ∧
      w0.sys.m_numGridCells = 0 ∧ w0.sys.m_numGridCells ≠ 65536 * 65536 := by
  obtain ⟨w0, e, g, -⟩ :=
    newParticleSystem_spec demoGpu rawWorld 2147483648 (65536, 65536) (by decide)
  have n1 : w0.sys.m_numParticles = 2147483648 := congrArg Geometry.numParticles g
  have n4 : w0.sys.m_numGridCells = umul 65536 65536 := congrArg Geometry.numGridCells g
  have t : toInt 2147483648 = -2147483648 := by
    simp [toInt, UINT_RANGE]
  have u : umul 65536 65536 = 0 := by
    simp [umul, UINT_RANGE]
  refine ⟨w0, e, ?_, ?_, ?_, ?_⟩
  · rw [getNumParticles, n1, t]
  · rw [getNumParticles, n1, t]; norm_num
  · rw [n4, u]
  · rw [n4, u]; norm_num

/-! ## C8: the cell size is twice the particle radius -/

/-- C8. For every `uint` particle count and every grid size the constructor
returns a state in which `getCellSize()` equals
`(2 * getParticleRadius(), 2 * getParticleRadius())`, and the same holds in
every state that a sequence of public operations (update, reset, the array
accessors, the setters) reaches from it.  When `12 * numParticles` fits an
`int`, every sequence of operations without caller-supplied arrays does
return. -/
theorem cellSize_is_twice_particleRadius (G : Gpu) (fl : ℚ → ℚ) (RAND_MAX : Nat)
    (raw : World) (numParticles : Nat) (gridSize : Nat × Nat) (ops : List Op)
    (hN : numParticles < 4294967296) :
    ∃ w0, newParticleSystem G raw numParticles gridSize = .ok w0 ∧
      getCellSize w0 = (2 * getParticleRadius w0, 2 * getParticleRadius w0) ∧
      (∀ w, run G fl RAND_MAX ops w0 = .ok w →
        getCellSize w = (2 * getParticleRadius w, 2 * getParticleRadius w)) ∧
      (12 * numParticles ≤ 2147483647 → (∀ op ∈ ops, op.takesNoArray = true) →
        ∃ w, run G fl RAND_MAX ops w0 = .ok w) := by
  obtain ⟨w0, e, g, r, -, sm⟩ := newParticleSystem_spec G raw numParticles gridSize hN
  have key : ∀ w : World, w.sys.geometry = w0.sys.geometry →
      getCellSize w = (2 * getParticleRadius w, 2 * getParticleRadius w) := by
    intro w gw
    have gw2 := gw.trans g
    have c : w.sys.m_params.cellSize = (1 / 128 * 2, 1 / 128 * 2) :=
      congrArg Geometry.cellSize gw2
    have p : w.sys.m_params.particleRadius = 1 / 128 := congrArg Geometry.particleRadius gw2
    rw [getCellSize, getParticleRadius, c, p]
    norm_num
  refine ⟨w0, e, key w0 rfl, fun w hw => key w (run_geometry G fl RAND_MAX ops w0 w hw), ?_⟩
  intro h12 hops
  obtain ⟨w, hw, -⟩ := run_good G fl RAND_MAX ops w0 hops ⟨r, sm h12⟩
  exact ⟨w, hw⟩

/-- Witness for C8: one particle on a 2 × 2 grid, then a step, a reset, both
downloads and two setters. -/
theorem cellSize_is_twice_particleRadius_witness :
    ∃ w0, newParticleSystem demoGpu rawWorld 1 (2, 2) = .ok w0 ∧
      getCellSize w0 = (2 * getParticleRadius w0, 2 * getParticleRadius w0) ∧
      (∀ w, run demoGpu binary32 2147483647
          [.update 1, .reset (fun _ => 12345), .getPositionArray, .getVelocityArray,
           .setCollideSpring (-2), .setDamping 0] w0 = .ok w →
        getCellSize w = (2 * getParticleRadius w, 2 * getParticleRadius w)) ∧
      (12 * 1 ≤ 2147483647 →
        (∀ op ∈ ([.update 1, .reset (fun _ => 12345), .getPositionArray, .getVelocityArray,
           .setCollideSpring (-2), .setDamping 0] : List Op), op.takesNoArray = true) →
        ∃ w, run demoGpu binary32 2147483647
          [.update 1, .reset (fun _ => 12345), .getPositionArray, .getVelocityArray,
           .setCollideSpring (-2), .setDamping 0] w0 = .ok w) :=
  cellSize_is_twice_particleRadius demoGpu binary32 2147483647 rawWorld 1 (2, 2)
    [.update 1, .reset (fun _ => 12345), .getPositionArray, .getVelocityArray,
     .setCollideSpring (-2), .setDamping 0] (by decide)

/-! ## C9: the lifecycle flag -/

theorem freeFloats_geometry (b : FBuf) (w w2 : World) (h : freeFloats b w = .ok w2) :
    w2.sys.geometry = w.sys.geometry := by
  simp only [freeFloats, Except.bind_eq_ok] at h
  obtain ⟨_, _, h⟩ := h
  cases h
  simp only [geometry_setF]

theorem freeUints_geometry (b : UBuf) (w w2 : World) (h : freeUints b w = .ok w2) :
    w2.sys.geometry = w.sys.geometry := by
  simp only [freeUints, Except.bind_eq_ok] at h
  obtain ⟨_, _, h⟩ := h
  cases h
  simp only [geometry_setU]

/-- A state that `_finalize` returns has the flag set, like the state it
started from: no statement of `_finalize` assigns `m_bInitialized`. -/
theorem finalize_keeps_flag (w w2 : World) (h : _finalize w = .ok w2) :
    w.sys.m_bInitialized = true ∧ w2.sys.m_bInitialized = true := by
  simp only [_finalize, Except.bind_eq_ok, assert_eq_ok] at h
  obtain ⟨_, hI, _, _, _, _, _, _, _, _, w3, h3, w4, h4, w5, h5, w6, h6, w7, h7, w8, h8,
    w9, h9, w10, h10, h⟩ := h
  cases h
  have g3 := freeFloats_geometry _ _ _ h3
  have g4 := freeFloats_geometry _ _ _ h4
  have g5 := freeFloats_geometry _ _ _ h5
  have g6 := freeUints_geometry _ _ _ h6
  have g7 := freeUints_geometry _ _ _ h7
  have g8 := freeUints_geometry _ _ _ h8
  have g9 := freeUints_geometry _ _ _ h9
  have g10 : w10.sys.geometry = w9.sys.geometry := by
    simp only [unregisterGLBufferObject] at h10
    split at h10
    · cases h10; rfl
    · cases h10
  have g := congrArg Geometry.initialized
    (g10.trans (g9.trans (g8.trans (g7.trans (g6.trans (g5.trans (g4.trans g3)))))))
  simp only [ParticleSystem.geometry] at g
  refine ⟨hI, ?_⟩
  show w10.sys.m_bInitialized = true
  rw [g]
  exact hI

/-- C9, as the code has it.  The flag `m_bInitialized` is set once, by
`_initialize`, and never cleared.  The constructor returns an object with the flag set and all
arrays live; every state that a sequence of public operations (`update`,
`reset` and the others) reaches from it has the flag set and all arrays live;
on each such state `_finalize` (as the destructor calls it) returns, releases
the arrays and the buffer object and assigns no other member, so that the flag
is still set afterwards and the object would still pass
`assert(m_bInitialized)`, although no step can run on it any more; the
destructor then sets `m_numParticles` to 0.  `_initialize` on an object whose
flag is set and `_finalize` on an object whose flag is clear end in the
assertion failure.  When `12 * numParticles` fits an `int`, every sequence of
operations without caller-supplied arrays does return. -/
theorem lifecycle_flag_is_set_once (G : Gpu) (fl : ℚ → ℚ) (RAND_MAX : Nat) (raw : World)
    (numParticles : Nat) (gridSize : Nat × Nat) (ops : List Op)
    (hN : numParticles < 4294967296) :
    (∃ w0, newParticleSystem G raw numParticles gridSize = .ok w0 ∧
      w0.sys.m_bInitialized = true ∧ Allocated w0 ∧
      (∀ w1, run G fl RAND_MAX ops w0 = .ok w1 →
        w1.sys.m_bInitialized = true ∧ Allocated w1 ∧
        _finalize w1 =
          .ok { w1 with sys := finalized w1.sys, log := w1.log ++ finalizeCalls } ∧
        (finalized w1.sys).m_bInitialized = true ∧
        assert (finalized w1.sys).m_bInitialized = .ok () ∧
        ¬ Ready { w1 with sys := finalized w1.sys, log := w1.log ++ finalizeCalls } ∧
        deleteParticleSystem w1 =
          .ok { w1 with sys := { finalized w1.sys with m_numParticles := 0 },
                        log := w1.log ++ finalizeCalls }) ∧
      (12 * numParticles ≤ 2147483647 → (∀ op ∈ ops, op.takesNoArray = true) →
        ∃ w1, run G fl RAND_MAX ops w0 = .ok w1)) ∧
    (∀ (w : World) (n : Int), w.sys.m_bInitialized = true →
      _initialize G n w = .error .assertion) ∧
    (∀ w : World, w.sys.m_bInitialized = false → _finalize w = .error .assertion) := by
  refine ⟨?_, ?_, ?_⟩
  · obtain ⟨w0, e, f, -, -, -, al⟩ := newParticleSystem_host G raw numParticles gridSize hN
    obtain ⟨w0b, eb, -, r, -, sm⟩ := newParticleSystem_spec G raw numParticles gridSize hN
    have same : w0b = w0 := Except.ok.inj (eb.symm.trans e)
    subst same
    refine ⟨w0b, e, f, al, ?_, ?_⟩
    · intro w1 hw
      have gw := run_geometry G fl RAND_MAX ops w0b w1 hw
      have lw := run_layout G fl RAND_MAX ops w0b w1 hw
      have f1 : w1.sys.m_bInitialized = true := (congrArg Geometry.initialized gw).trans f
      have al1 : Allocated w1 := allocated_of_same w0b w1 lw gw al
      have fs := finalize_spec w1 al1
      refine ⟨f1, al1, fs, f1, ?_, ?_, ?_⟩
      · show assert w1.sys.m_bInitialized = .ok ()
        rw [f1]; rfl
      · intro hr
        have := hr.2.1
        simp [finalized] at this
      · simp only [deleteParticleSystem, fs, bind, Except.bind, pure, Except.pure]
    · intro h12 hops
      obtain ⟨w, hw, -⟩ := run_good G fl RAND_MAX ops w0b hops ⟨r, sm h12⟩
      exact ⟨w, hw⟩
  · intro w n h
    simp [assert, _initialize, h, bind, Except.bind]
  · intro w h
    simp [_finalize, assert, h, bind, Except.bind]

/-- Witness for C9 as the code has it: one particle on a 2 × 2 grid, a step and
a reset, then `_finalize`. -/
theorem lifecycle_flag_is_set_once_witness :
    ∃ w0 w1, newParticleSystem demoGpu rawWorld 1 (2, 2) = .ok w0 ∧
      w0.sys.m_bInitialized = true ∧
      run demoGpu binary32 2147483647 [.update 1, .reset (fun _ => 12345)] w0 = .ok w1 ∧
      w1.sys.m_bInitialized = true ∧
      _finalize w1 = .ok { w1 with sys := finalized w1.sys, log := w1.log ++ finalizeCalls } ∧
      (finalized w1.sys).m_bInitialized = true ∧
      ¬ Ready { w1 with sys := finalized w1.sys, log := w1.log ++ finalizeCalls } := by
  obtain ⟨⟨w0, e, f, -, a, b⟩, -, -⟩ :=
    lifecycle_flag_is_set_once demoGpu binary32 2147483647 rawWorld 1 (2, 2)
      [.update 1, .reset (fun _ => 12345)] (by decide)
  obtain ⟨w1, hw⟩ := b (by decide) (by simp [Op.takesNoArray])
  obtain ⟨f1, -, fs, f2, -, nr, -⟩ := a w1 hw
  exact ⟨w0, w1, e, f, hw, f1, fs, f2, nr⟩

/-- C9 as stated fails at `_finalize`: on the constructed one-particle system
`_finalize()`, which the destructor runs, returns and leaves `m_bInitialized`
set: the object has not left the state that `assert(m_bInitialized)` accepts,
although its arrays are released. -/
theorem finalize_leaves_flag_set :
    newParticleSystem demoGpu rawWorld 1 (2, 2) = .ok demoWorld ∧
    _finalize demoWorld = .ok demoFinalized ∧ demoFinalized.sys.m_bInitialized = true ∧
    assert demoFinalized.sys.m_bInitialized = .ok () ∧
    demoFinalized.sys.m_hPos = .dangling ∧
    deleteParticleSystem demoWorld =
      .ok { demoFinalized with sys := { demoFinalized.sys with m_numParticles := 0 } } := by
  have fin : _finalize demoWorld = .ok demoFinalized := by
    simp [_finalize, demoFinalized, demoWorld, assert, Block.release, freeFloats, freeUints,
      unregisterGLBufferObject, glDeleteBuffers, getF, setF, getU, setU, bind, Except.bind, pure,
      Except.pure]
  refine ⟨newParticleSystem_demo, fin, rfl, rfl, rfl, ?_⟩
  simp only [deleteParticleSystem, fin, bind, Except.bind, pure, Except.pure]

/-! ## C11: the extent of the grid -/

/-- The grid values of a state with the fixed members the constructor sets. -/
theorem grid_of_geometry (w : World) (n : Nat) (g : Nat × Nat)
    (h : w.sys.geometry =
      { initialized := true
        numParticles := n
        gridSize := g
        numGridCells := umul g.1 g.2
        paramsGridSize := g
        paramsNumCells := umul g.1 g.2
        paramsNumBodies := n
        particleRadius := 1 / 128
        worldOrigin := (-1, -1)
        cellSize := (1 / 128 * 2, 1 / 128 * 2)
        boundaryDamping := -(1 / 2) }) :
    getWorldOrigin w = (-1, -1) ∧ getCellSize w = (2 * (1 / 128), 2 * (1 / 128)) ∧
    getGridSize w = g ∧
    gridExtent w = (-1 + (g.1 : ℚ) / 64, -1 + (g.2 : ℚ) / 64) := by
  have o : w.sys.m_params.worldOrigin = (-1, -1) := congrArg Geometry.worldOrigin h
  have c : w.sys.m_params.cellSize = (1 / 128 * 2, 1 / 128 * 2) := congrArg Geometry.cellSize h
  have s : w.sys.m_params.gridSize = g := congrArg Geometry.paramsGridSize h
  refine ⟨o, ?_, s, ?_⟩
  · rw [getCellSize, c]; norm_num
  · rw [gridExtent, getWorldOrigin, getCellSize, getGridSize, o, c, s]
    simp only [Prod.mk.injEq]
    constructor <;> ring

/-- C11, as the code has it.  For the shipped grid size `(128, 128)` the
constructor sets `worldOrigin = (-1, -1)` and `cellSize = 2 * (1 / 128)`, the
grid extent `worldOrigin + gridSize * cellSize` equals `(1, 1)` exactly and
the grid covers exactly the square `[-1, 1)^2`.  `reset` seeds every particle
in the closed square `[-1, 1]^2`: a seeded particle lies in the covered region
exactly when both its coordinates are below 1.  For a grid of fewer than 128
cells on an axis the extent is strictly below 1 on that axis (and not below
-1, strictly above it when the axis has a cell); for `(8, 8)` the extent is
`(-7 / 8, -7 / 8)`. -/
theorem grid_extent_of_shipped_configuration (G : Gpu) (fl : ℚ → ℚ) (RAND_MAX : Nat)
    (rnd : Nat → Nat) (raw : World) (numParticles : Nat) (gridSize : Nat × Nat)
    (hN : numParticles < 4294967296) (h12 : 12 * numParticles ≤ 2147483647)
    (hfl : Rounding fl) (hM : 0 < RAND_MAX) (hr : ∀ k, rnd k ≤ RAND_MAX) :
    (∃ w0, newParticleSystem G raw numParticles (128, 128) = .ok w0 ∧
      getWorldOrigin w0 = (-1, -1) ∧ getCellSize w0 = (2 * (1 / 128), 2 * (1 / 128)) ∧
      gridExtent w0 = (1, 1) ∧
      (∀ x y : ℚ, inGrid w0 x y ↔ ((-1 ≤ x ∧ x < 1) ∧ (-1 ≤ y ∧ y < 1))) ∧
      ∃ w2 hp2, reset fl RAND_MAX rnd w0 = .ok w2 ∧ w2.sys.m_hPos = .live hp2 ∧
        gridExtent w2 = (1, 1) ∧
        ∀ k, k < numParticles →
          ∃ x y, hp2[3 * k]? = some x ∧ hp2[3 * k + 1]? = some y ∧
            (-1 ≤ x ∧ x ≤ 1) ∧ (-1 ≤ y ∧ y ≤ 1) ∧ (inGrid w2 x y ↔ (x < 1 ∧ y < 1))) ∧
    (∃ w0, newParticleSystem G raw numParticles gridSize = .ok w0 ∧
      (-1 ≤ (gridExtent w0).1 ∧ -1 ≤ (gridExtent w0).2) ∧
      (gridSize.1 < 128 → (gridExtent w0).1 < 1) ∧
      (gridSize.2 < 128 → (gridExtent w0).2 < 1) ∧
      (0 < gridSize.1 → -1 < (gridExtent w0).1) ∧
      (0 < gridSize.2 → -1 < (gridExtent w0).2)) ∧
    (∃ w0, newParticleSystem G raw numParticles (8, 8) = .ok w0 ∧
      gridExtent w0 = (-7 / 8, -7 / 8)) := by
  refine ⟨?_, ?_, ?_⟩
  · obtain ⟨w0, e, g, -, -, sm⟩ := newParticleSystem_spec G raw numParticles (128, 128) hN
    obtain ⟨o, c, -, x⟩ := grid_of_geometry w0 numParticles (128, 128) g
    have x1 : gridExtent w0 = (1, 1) := by rw [x]; norm_num
    have n0 : w0.sys.m_numParticles = numParticles := congrArg Geometry.numParticles g
    refine ⟨w0, e, o, c, x1, ?_, ?_⟩
    · intro a b
      simp only [inGrid, o, x1]
    · obtain ⟨hp2, hv2, r, -, -, a, -⟩ := reset_spec fl RAND_MAX rnd w0 (sm h12)
      obtain ⟨w2, r2, m2⟩ : ∃ w2, reset fl RAND_MAX rnd w0 = .ok w2 ∧
          w2.sys.m_hPos = .live hp2 := ⟨_, r, rfl⟩
      have g2 := (reset_geometry fl RAND_MAX rnd w0 w2 r2).trans g
      obtain ⟨o2, -, -, x2⟩ := grid_of_geometry w2 numParticles (128, 128) g2
      have x3 : gridExtent w2 = (1, 1) := by rw [x2]; norm_num
      refine ⟨w2, hp2, r2, m2, x3, ?_⟩
      intro k hk
      obtain ⟨ax, ay, -⟩ := a k (by rw [n0]; exact hk)
      obtain ⟨fx0, fx1⟩ := frand_bounds fl RAND_MAX (rnd (2 * k)) hfl hM (hr _)
      obtain ⟨fy0, fy1⟩ := frand_bounds fl RAND_MAX (rnd (2 * k + 1)) hfl hM (hr _)
      have bx := seed_bounds fl _ hfl fx0 fx1
      have by1 := seed_bounds fl _ hfl fy0 fy1
      refine ⟨_, _, ax, ay, bx, by1, ?_⟩
      simp only [inGrid, o2, x3]
      constructor
      · intro h; exact ⟨h.1.2, h.2.2⟩
      · intro h; exact ⟨⟨bx.1, h.1⟩, ⟨by1.1, h.2⟩⟩
  · obtain ⟨w0, e, g, -⟩ := newParticleSystem_spec G raw numParticles gridSize hN
    obtain ⟨-, -, -, x⟩ := grid_of_geometry w0 numParticles gridSize g
    have p1 : (0 : ℚ) ≤ (gridSize.1 : ℚ) := Nat.cast_nonneg _
    have p2 : (0 : ℚ) ≤ (gridSize.2 : ℚ) := Nat.cast_nonneg _
    refine ⟨w0, e, ?_, ?_, ?_, ?_, ?_⟩
    · rw [x]; constructor <;> simp only <;> linarith
    · intro h
      have : (gridSize.1 : ℚ) < 128 := by exact_mod_cast h
      rw [x]; simp only; linarith
    · intro h
      have : (gridSize.2 : ℚ) < 128 := by exact_mod_cast h
      rw [x]; simp only; linarith
    · intro h
      have : (0 : ℚ) < (gridSize.1 : ℚ) := by exact_mod_cast h
      rw [x]; simp only; linarith
    · intro h
      have : (0 : ℚ) < (gridSize.2 : ℚ) := by exact_mod_cast h
      rw [x]; simp only; linarith
  · obtain ⟨w0, e, g, -⟩ := newParticleSystem_spec G raw numParticles (8, 8) hN
    obtain ⟨-, -, -, x⟩ := grid_of_geometry w0 numParticles (8, 8) g
    exact ⟨w0, e, by rw [x]; norm_num⟩

/-- Witness for C11 as the code has it: the shipped 10000 particles, binary32
rounding, `RAND_MAX = 2147483647`, `rand()` returning 12345 every time, and
the grid size `(64, 64)` for the smaller grid. -/
theorem grid_extent_of_shipped_configuration_witness :
    (∃ w0, newParticleSystem demoGpu rawWorld 10000 (128, 128) = .ok w0 ∧
      getWorldOrigin w0 = (-1, -1) ∧ getCellSize w0 = (2 * (1 / 128), 2 * (1 / 128)) ∧
      gridExtent w0 = (1, 1) ∧
      (∀ x y : ℚ, inGrid w0 x y ↔ ((-1 ≤ x ∧ x < 1) ∧ (-1 ≤ y ∧ y < 1))) ∧
      ∃ w2 hp2, reset binary32 2147483647 (fun _ => 12345) w0 = .ok w2 ∧
        w2.sys.m_hPos = .live hp2 ∧ gridExtent w2 = (1, 1) ∧
        ∀ k, k < 10000 →
          ∃ x y, hp2[3 * k]? = some x ∧ hp2[3 * k + 1]? = some y ∧
            (-1 ≤ x ∧ x ≤ 1) ∧ (-1 ≤ y ∧ y ≤ 1) ∧ (inGrid w2 x y ↔ (x < 1 ∧ y < 1))) ∧
    (∃ w0, newParticleSystem demoGpu rawWorld 10000 (64, 64) = .ok w0 ∧
      (-1 ≤ (gridExtent w0).1 ∧ -1 ≤ (gridExtent w0).2) ∧
      (((64, 64) : Nat × Nat).1 < 128 → (gridExtent w0).1 < 1) ∧
      (((64, 64) : Nat × Nat).2 < 128 → (gridExtent w0).2 < 1) ∧
      (0 < ((64, 64) : Nat × Nat).1 → -1 < (gridExtent w0).1) ∧
      (0 < ((64, 64) : Nat × Nat).2 → -1 < (gridExtent w0).2)) ∧
    (∃ w0, newParticleSystem demoGpu rawWorld 10000 (8, 8) = .ok w0 ∧
      gridExtent w0 = (-7 / 8, -7 / 8)) :=
  grid_extent_of_shipped_configuration demoGpu binary32 2147483647 (fun _ => 12345) rawWorld
    10000 (64, 64) (by decide) (by decide) rounding_binary32 (by decide)
    (fun _ => by show (12345 : Nat) ≤ 2147483647; decide)

/-- C11 as stated fails in its last clause about `reset`: in the shipped
configuration (10000 particles, grid `(128, 128)`), with binary32 rounding,
`RAND_MAX = 2147483647` and `rand()` returning `RAND_MAX`, `reset()` seeds
particle 0 at `(1, 1)`.  That point is on the grid extent `(1, 1)`: it is not
in the square `[-1, 1)^2` and not in the region the grid covers. -/
theorem seeded_particle_outside_shipped_grid :
    ∃ w0 w2 hp2, newParticleSystem demoGpu rawWorld 10000 (128, 128) = .ok w0 ∧
      reset binary32 2147483647 (fun _ => 2147483647) w0 = .ok w2 ∧
      w2.sys.m_hPos = .live hp2 ∧ hp2[0]? = some 1 ∧ hp2[1]? = some 1 ∧
      gridExtent w2 = (1, 1) ∧ ¬ inGrid w2 1 1 ∧ ¬ ((1 : ℚ) < 1) := by
  obtain ⟨w0, e, g, -, -, sm⟩ :=
    newParticleSystem_spec demoGpu rawWorld 10000 (128, 128) (by decide)
  have n0 : w0.sys.m_numParticles = 10000 := congrArg Geometry.numParticles g
  obtain ⟨hp2, hv2, r, -, -, a, -⟩ :=
    reset_spec binary32 2147483647 (fun _ => 2147483647) w0 (sm (by decide))
  obtain ⟨w2, r2, m2⟩ : ∃ w2, reset binary32 2147483647 (fun _ => 2147483647) w0 = .ok w2 ∧
      w2.sys.m_hPos = .live hp2 := ⟨_, r, rfl⟩
  have g2 := (reset_geometry binary32 2147483647 (fun _ => 2147483647) w0 w2 r2).trans g
  obtain ⟨-, -, -, x2⟩ := grid_of_geometry w2 10000 (128, 128) g2
  have x3 : gridExtent w2 = (1, 1) := by rw [x2]; norm_num
  obtain ⟨ax, ay, -⟩ := a 0 (by rw [n0]; decide)
  have s := seed_RAND_MAX binary32 2147483647 rounding_binary32 (by decide)
  simp only [seedX, seedY, s, Nat.mul_zero, Nat.zero_add] at ax ay
  refine ⟨w0, w2, hp2, e, r2, m2, ax, ay, x3, ?_, by norm_num⟩
  intro h
  have h1 := h.1.2
  rw [x3] at h1
  exact absurd h1 (by norm_num)

end GravitationalField
